import Mathlib

/-!
Shallow embedding of the MediCare Analytics data-generation pipeline
(`scripts/01_generate_data.py` together with `config.py`), and proofs of the
behavioural properties stated about it.

Modelling conventions:
* Datetimes are integer minutes measured from `START_DATE` (2020-01-01
  00:00); a Python `timedelta(days = d, hours = h, minutes = m)` becomes
  `d*1440 + h*60 + m`, and `timedelta.days` becomes flooring division by
  1440 (Python normalises negative timedeltas downward, so `Int.fdiv`).
* The three pseudo-random sources seeded at module load
  (`Faker.seed(42)`, `random.seed(42)`, `np.random.seed(42)`, used by the
  `faker` library, the `random` module, and `pandas.sample` respectively)
  are modelled as one abstract infinite stream of natural-number draws,
  consumed in program order; every sampling helper consumes a fixed number
  of draws, mirroring the call order of the script exactly.
* `random.uniform(a, b)` rounded to k decimals is modelled as an integer
  draw in the corresponding scaled inclusive range (cents / tenths); no
  claim depends on the distribution, only on determinism and bounds.
* Strings produced by the external Faker library (names, addresses, ...)
  are opaque: each call consumes one draw and returns a string determined
  by it. Faker is a third-party dependency, not code of this repository.
-/

namespace Medicare

/-- Abstract seeded pseudo-random source: an infinite stream of draws plus a
cursor.  Seeding (lines 28-30 of the script) fixes `stream`; consumption
order is the cursor. -/
structure Rng where
  stream : Nat → Nat
  pos : Nat

instance : Inhabited Rng := ⟨⟨fun _ => 0, 0⟩⟩

/-- Consume one raw draw. -/
def Rng.next (r : Rng) : Nat × Rng :=
  (r.stream r.pos, Rng.mk r.stream (r.pos + 1))

/-- `random.randint(a, b)` on naturals (inclusive on both ends). -/
def randN (a b : Nat) (r : Rng) : Nat × Rng :=
  let p := r.next
  (a + p.1 % (b + 1 - a), p.2)

/-- `random.randint(a, b)` with integer (possibly negative) bounds. -/
def randI (a b : Int) (r : Rng) : Int × Rng :=
  let p := r.next
  (a + ((p.1 % (b + 1 - a).toNat : Nat) : Int), p.2)

/-- `random.choice(l)`. -/
def choice {α : Type} [Inhabited α] (l : List α) (r : Rng) : α × Rng :=
  let p := r.next
  (l.getD (p.1 % l.length) default, p.2)

/-- `df.sample(1).iloc[0]`: one uniformly chosen row. -/
def sampleOne {α : Type} [Inhabited α] (l : List α) (r : Rng) : α × Rng :=
  choice l r

/-- `df.sample(n)`: `n` rows drawn without replacement. -/
def sampleK {α : Type} [Inhabited α] (k : Nat) (l : List α) (r : Rng) : List α × Rng :=
  match k with
  | 0 => ([], r)
  | Nat.succ k =>
    if l.isEmpty then ([], r) else
      let p := r.next
      let i := p.1 % l.length
      let q := sampleK k (l.eraseIdx i) p.2
      (l.getD i default :: q.1, q.2)

/-- `df.sample(frac = num/den)`: pandas draws `round(frac*len)` rows without
replacement; the float rounding to the nearest integer is modelled
arithmetically (tie behaviour is immaterial to every property proved, which
only uses that the result is drawn from the input rows). -/
def sampleFrac {α : Type} [Inhabited α] (num den : Nat) (l : List α) (r : Rng) : List α × Rng :=
  sampleK ((num * l.length + den / 2) / den) l r

/-- `random.random() > t/10`: the raw draw decides the branch. -/
def randGt (t : Nat) (r : Rng) : Bool × Rng :=
  let p := r.next
  (decide (t ≤ p.1 % 10), p.2)

/-- Opaque model of one Faker call: consumes one draw and yields a string
determined by it (Faker is an external library, its internals are not part
of this repository; only determinism matters). -/
def fakerStr (tag : String) (r : Rng) : String × Rng :=
  let p := r.next
  (tag ++ toString p.1, p.2)

/-- `for i in range(start, start+n)` threading a state through the body. -/
def loopN {σ : Type} (f : Nat → σ → σ) (i : Nat) (n : Nat) (s : σ) : σ :=
  match n with
  | 0 => s
  | Nat.succ n => loopN f (i + 1) n (f i s)

/-- Build a list row by row: `f` makes the row with index `i`, threading the
random source; used for the dimension generators that loop `for i in
range(1, n + 1)`. -/
def buildList {α : Type} (f : Nat → Rng → α × Rng) (i n : Nat) (r : Rng) : List α × Rng :=
  match n with
  | 0 => ([], r)
  | Nat.succ n =>
    let p := f i r
    let q := buildList f (i + 1) n p.2
    (p.1 :: q.1, q.2)

/-- Thread the random source through a row-building map over a list. -/
def mapRng {α β : Type} (f : α → Rng → β × Rng) : List α → Rng → List β × Rng
  | [], r => ([], r)
  | a :: l, r =>
    let p := f a r
    let q := mapRng f l p.2
    (p.1 :: q.1, q.2)

/-- `str(i).zfill(w)`. -/
def zfill (w : Nat) (i : Nat) : String :=
  let s := toString i
  String.mk (List.replicate (w - s.length) '0') ++ s

/-! ## Reference catalog (`config.py`) -/

/-- One row of the `WARDS` configuration list. -/
structure WardCfg where
  ward_id : Nat
  ward_name : String
  department : String
  bed_capacity : Nat
  ward_type : String
  floor_number : Nat
deriving DecidableEq, Inhabited

/-- `config.WARDS`: the 12 configured wards. -/
def WARDS : List WardCfg := [
  WardCfg.mk 1 "ICU" "Critical Care" 20 "Intensive Care" 3,
  WardCfg.mk 2 "ICU-2" "Critical Care" 20 "Intensive Care" 3,
  WardCfg.mk 3 "Emergency" "Emergency Medicine" 30 "Emergency" 1,
  WardCfg.mk 4 "Cardiology" "Cardiac Care" 25 "Specialty" 4,
  WardCfg.mk 5 "Maternity" "Obstetrics" 20 "Specialty" 2,
  WardCfg.mk 6 "Pediatrics" "Pediatrics" 30 "Specialty" 2,
  WardCfg.mk 7 "Surgery" "Surgical Services" 25 "Surgical" 5,
  WardCfg.mk 8 "Orthopedics" "Orthopedics" 20 "Specialty" 5,
  WardCfg.mk 9 "Oncology" "Cancer Care" 15 "Specialty" 6,
  WardCfg.mk 10 "General Medicine A" "Internal Medicine" 40 "General" 4,
  WardCfg.mk 11 "General Medicine B" "Internal Medicine" 40 "General" 4,
  WardCfg.mk 12 "Neurology" "Neurosciences" 20 "Specialty" 6]

/-- `config.STAFF_ROLES`. -/
def STAFF_ROLES : List String := [
  "Attending Physician", "Resident", "Nurse Practitioner", "Registered Nurse",
  "Licensed Practical Nurse", "Nursing Assistant", "Physical Therapist",
  "Occupational Therapist", "Respiratory Therapist", "Pharmacist"]

/-- `config.MEDICATION_CLASSES`. -/
def MEDICATION_CLASSES : List String := [
  "Antibiotic", "Analgesic", "Anticoagulant", "Antihypertensive", "Diuretic",
  "Antidiabetic", "Anticonvulsant", "Bronchodilator", "Sedative", "Antidepressant"]

/-- One row of `config.COMMON_DIAGNOSES` (before ids are assigned). -/
structure DiagnosisCfg where
  icd10_code : String
  diagnosis_name : String
  category : String
  severity_level : String
deriving DecidableEq, Inhabited

/-- `config.COMMON_DIAGNOSES`. -/
def COMMON_DIAGNOSES : List DiagnosisCfg := [
  DiagnosisCfg.mk "I21.9" "Acute Myocardial Infarction" "Cardiovascular" "Critical",
  DiagnosisCfg.mk "J18.9" "Pneumonia" "Respiratory" "Moderate",
  DiagnosisCfg.mk "I50.9" "Heart Failure" "Cardiovascular" "Serious",
  DiagnosisCfg.mk "N39.0" "Urinary Tract Infection" "Genitourinary" "Mild",
  DiagnosisCfg.mk "E11.9" "Type 2 Diabetes Mellitus" "Endocrine" "Moderate",
  DiagnosisCfg.mk "I63.9" "Cerebral Infarction (Stroke)" "Neurological" "Critical",
  DiagnosisCfg.mk "J44.1" "COPD with Exacerbation" "Respiratory" "Moderate",
  DiagnosisCfg.mk "K80.2" "Cholecystitis" "Digestive" "Moderate",
  DiagnosisCfg.mk "S72.0" "Hip Fracture" "Injury" "Serious",
  DiagnosisCfg.mk "C50.9" "Breast Cancer" "Neoplasm" "Serious",
  DiagnosisCfg.mk "I10" "Essential Hypertension" "Cardiovascular" "Mild",
  DiagnosisCfg.mk "K21.9" "GERD" "Digestive" "Mild"]

/-- `config.VITAL_SIGNS_RANGES` (inclusive bounds; temperature is in tenths
of a degree Celsius so that the catalog stays over integers). -/
structure VitalRangesCfg where
  blood_pressure_systolic : Nat × Nat
  blood_pressure_diastolic : Nat × Nat
  heart_rate : Nat × Nat
  temperature_tenths : Nat × Nat
  respiratory_rate : Nat × Nat
  oxygen_saturation : Nat × Nat
  pain_level : Nat × Nat
deriving DecidableEq, Inhabited

/-- `config.VITAL_SIGNS_RANGES`. -/
def VITAL_SIGNS_RANGES : VitalRangesCfg :=
  VitalRangesCfg.mk (90, 180) (60, 120) (50, 120) (360, 390) (12, 25) (85, 100) (0, 10)

/-- `config.NUM_PATIENTS`. -/
def NUM_PATIENTS : Nat := 500

/-- `config.NUM_STAFF`. -/
def NUM_STAFF : Nat := 150

/-- `config.NUM_YEARS`. -/
def NUM_YEARS : Nat := 5

/-- Days from 2020-01-01 to 2025-01-01: the `(end - start).days` horizon
produced by `pd.DateOffset(years=5)` over `START_DATE` (366+365+365+365+366). -/
def HORIZON_DAYS : Nat := 1827

/-! ## Dimension entities and generators -/

/-- One row of `dim_patients`. -/
structure Patient where
  patient_id : Nat
  mrn : String
  first_name : String
  last_name : String
  date_of_birth : String
  gender : String
  blood_type : String
  address : String
  city : String
  state : String
  zip_code : String
  phone : String
  email : String
  insurance_provider : String
  emergency_contact_name : String
  emergency_contact_phone : String
  effective_date : String
  end_date : Option String
  is_current : Bool
deriving DecidableEq, Inhabited

/-- Local list `blood_types` of `generate_patients`. -/
def bloodTypes : List String := ["A+", "A-", "B+", "B-", "AB+", "AB-", "O+", "O-"]

/-- Local list `genders` of `generate_patients`. -/
def genders : List String := ["Male", "Female", "Other"]

/-- Local list `insurance_providers` of `generate_patients`. -/
def insuranceProviders : List String :=
  ["Blue Cross", "Aetna", "UnitedHealthcare", "Cigna", "Medicare", "Medicaid"]

/-- One iteration of the `generate_patients` loop (draws in source order). -/
def mkPatient (i : Nat) (r : Rng) : Patient × Rng :=
  let g := choice genders r
  let fn := if g.1 == "Male" then fakerStr "first_name_male" g.2 else fakerStr "first_name_female" g.2
  let ln := fakerStr "last_name" fn.2
  let dob := fakerStr "date_of_birth" ln.2
  let bt := choice bloodTypes dob.2
  let ad := fakerStr "street_address" bt.2
  let ci := fakerStr "city" ad.2
  let st := fakerStr "state_abbr" ci.2
  let zp := fakerStr "zipcode" st.2
  let ph := fakerStr "phone_number" zp.2
  let em := fakerStr "email" ph.2
  let ins := choice insuranceProviders em.2
  let en := fakerStr "name" ins.2
  let ep := fakerStr "phone_number" en.2
  (Patient.mk i ("MRN" ++ zfill 8 i) fn.1 ln.1 dob.1 g.1 bt.1 ad.1 ci.1 st.1 zp.1
    ph.1 em.1 ins.1 en.1 ep.1 "2020-01-01" none true, ep.2)

/-- `generate_patients`. -/
def generate_patients (n : Nat) (r : Rng) : List Patient × Rng :=
  buildList mkPatient 1 n r

/-- One row of `dim_staff`. -/
structure Staff where
  staff_id : Nat
  first_name : String
  last_name : String
  role : String
  department : String
  shift_pattern : String
  qualifications : String
  hire_date : String
  is_active : Bool
deriving DecidableEq, Inhabited

/-- Local list `shift_patterns` of `generate_staff`. -/
def shiftPatterns : List String := ["Day", "Night", "Rotating", "On-Call"]

/-- One iteration of the `generate_staff` loop. -/
def mkStaff (i : Nat) (r : Rng) : Staff × Rng :=
  let role := choice STAFF_ROLES r
  let dept := choice (WARDS.map (fun w => w.department)) role.2
  let fn := fakerStr "first_name" dept.2
  let ln := fakerStr "last_name" fn.2
  let sh := choice shiftPatterns ln.2
  let hd := fakerStr "hire_date" sh.2
  (Staff.mk i fn.1 ln.1 role.1 dept.1 sh.1 ("Licensed " ++ role.1) hd.1 true, hd.2)

/-- `generate_staff`. -/
def generate_staff (n : Nat) (r : Rng) : List Staff × Rng :=
  buildList mkStaff 1 n r

/-- One row of `dim_wards`: the configuration row plus the generated
`nurse_station_contact`. -/
structure Ward where
  ward_id : Nat
  ward_name : String
  department : String
  bed_capacity : Nat
  ward_type : String
  floor_number : Nat
  nurse_station_contact : String
deriving DecidableEq, Inhabited

/-- `generate_wards`. -/
def generate_wards (r : Rng) : List Ward × Rng :=
  mapRng (fun w r =>
    let ph := fakerStr "phone_number" r
    (Ward.mk w.ward_id w.ward_name w.department w.bed_capacity w.ward_type w.floor_number ph.1,
      ph.2)) WARDS r

/-- One row of `dim_medications` (cost in cents, see module conventions). -/
structure Medication where
  medication_id : Nat
  drug_name : String
  generic_name : String
  drug_class : String
  dosage_form : String
  manufacturer : String
  cost_per_unit_cents : Nat
  contraindications : String
deriving DecidableEq, Inhabited

/-- Local list `dosage_forms` of `generate_medications`. -/
def dosageForms : List String :=
  ["Tablet", "Capsule", "Injection", "IV Solution", "Topical Cream", "Inhaler"]

/-- Local list `manufacturers` of `generate_medications`. -/
def manufacturers : List String :=
  ["Pfizer", "Novartis", "Roche", "Merck", "GSK", "AstraZeneca"]

/-- One iteration of the `generate_medications` loop. -/
def mkMedication (i : Nat) (r : Rng) : Medication × Rng :=
  let cls := choice MEDICATION_CLASSES r
  let dn := fakerStr "word" cls.2
  let gn := fakerStr "word" dn.2
  let df := choice dosageForms gn.2
  let mf := choice manufacturers df.2
  let c := Rng.next mf.2
  (Medication.mk i (dn.1 ++ "zole") (gn.1 ++ "mine") cls.1 df.1 mf.1
    (50 + c.1 % 49951) ("Allergy to " ++ cls.1), c.2)

/-- `generate_medications` (the script calls it with `n = 200`). -/
def generate_medications (n : Nat) (r : Rng) : List Medication × Rng :=
  buildList mkMedication 1 n r

/-- One row of `dim_procedures` (base cost in cents). -/
structure Procedure where
  procedure_id : Nat
  procedure_name : String
  procedure_type : String
  department : String
  avg_duration_minutes : Nat
  base_cost_cents : Nat
  requires_anesthesia : Bool
deriving DecidableEq, Inhabited

/-- Local list `procedure_types` of `generate_procedures`. -/
def procedureTypes : List String := ["Diagnostic", "Therapeutic", "Surgical", "Rehabilitative"]

/-- One iteration of the `generate_procedures` loop. -/
def mkProcedure (i : Nat) (r : Rng) : Procedure × Rng :=
  let pt := choice procedureTypes r
  let nm := fakerStr "catch_phrase" pt.2
  let dept := choice (WARDS.map (fun w => w.department)) nm.2
  let du := randN 15 480 dept.2
  let c := Rng.next du.2
  (Procedure.mk i nm.1 pt.1 dept.1 du.1 (10000 + c.1 % 4990001) (pt.1 == "Surgical"), c.2)

/-- `generate_procedures` (the script calls it with `n = 100`). -/
def generate_procedures (n : Nat) (r : Rng) : List Procedure × Rng :=
  buildList mkProcedure 1 n r

/-- One row of `dim_diagnoses`: a catalog row plus its assigned id. -/
structure Diagnosis where
  icd10_code : String
  diagnosis_name : String
  category : String
  severity_level : String
  diagnosis_id : Nat
deriving DecidableEq, Inhabited

/-- `generate_diagnoses`: the catalog with `diagnosis_id = 1..len`. -/
def generate_diagnoses : List Diagnosis :=
  (List.range COMMON_DIAGNOSES.length).map (fun j =>
    let c := COMMON_DIAGNOSES.getD j default
    Diagnosis.mk c.icd10_code c.diagnosis_name c.category c.severity_level (j + 1))

/-- One row of `dim_beds`. -/
structure Bed where
  bed_id : Nat
  ward_id : Nat
  bed_number : String
  bed_type : String
  has_ventilator : Bool
  has_monitor : Bool
  is_available : Bool
deriving DecidableEq, Inhabited

/-- Inner loop of `generate_beds` for one ward: one bed per capacity unit,
threading `(rows, bed_id, rng)`. -/
def genBedsForWard (st : List Bed × Nat × Rng) (w : WardCfg) : List Bed × Nat × Rng :=
  loopN (fun bedNum s =>
    let bt := if (w.ward_name.splitOn "ICU").length ≠ 1 then "ICU" else "Standard"
    let av := choice [true, false] s.2.2
    (s.1 ++ [Bed.mk s.2.1 w.ward_id ((w.ward_name.take 3).toUpper ++ "-" ++ zfill 3 bedNum)
        bt (bt == "ICU") true av.1],
      s.2.1 + 1, av.2)) 1 w.bed_capacity st

/-- `generate_beds`. -/
def generate_beds (r : Rng) : List Bed × Rng :=
  let st := WARDS.foldl genBedsForWard ([], 1, r)
  (st.1, st.2.2)

/-- `generate_date_dimension`, reduced to the day offsets `0..horizon`; the
remaining columns (weekday, month, quarter, ...) are all deterministic
functions of the date and play no part in any stated property. -/
def generate_date_dimension (horizonDays : Nat) : List Nat :=
  List.range (horizonDays + 1)

/-! ## Fact generators -/

/-- One row of `fact_admissions`. Datetimes in minutes, dates in whole days
from the start date; `total_charges` in cents.  `secondary_diagnosis_ids`
keeps the sampled id list (the script serialises it comma-joined). -/
structure Admission where
  admission_id : Nat
  patient_id : Nat
  ward_id : Nat
  bed_id : Nat
  admission_date : Int
  admission_datetime : Int
  discharge_date : Int
  discharge_datetime : Int
  admission_type : String
  chief_complaint : String
  primary_diagnosis_id : Nat
  secondary_diagnosis_ids : List Nat
  attending_doctor_id : Nat
  length_of_stay : Nat
  is_readmission : Bool
  readmission_days_since_discharge : Option Int
  discharge_disposition : String
  total_charges_cents : Nat
deriving DecidableEq, Inhabited

/-- `timedelta.days` of the difference of two datetimes-in-minutes: Python
normalises a timedelta so that `days` is the floor of the exact day count
(`timedelta(minutes=-30).days == -1`), hence flooring division. -/
def daysBetween (a b : Int) : Int := Int.fdiv (a - b) 1440

/-- Local list `admission_types` of `generate_admissions`. -/
def admissionTypes : List String := ["Emergency", "Scheduled", "Transfer"]

/-- Local list `dispositions` of `generate_admissions`. -/
def dispositions : List String :=
  ["Home", "Rehab Facility", "Nursing Home", "Expired", "Transfer", "Left AMA"]

/-- Severity-conditioned stay-length sampling of `generate_admissions`. -/
def losFor (sev : String) (r : Rng) : Nat × Rng :=
  if sev == "Critical" then randN 5 21 r
  else if sev == "Serious" then randN 3 14 r
  else randN 1 7 r

/-- The role filter `staff_df['role'].isin(['Attending Physician', 'Resident'])`. -/
def doctorPool (staff : List Staff) : List Staff :=
  staff.filter (fun s => s.role == "Attending Physician" || s.role == "Resident")

/-- The role filter `staff_df['role'] == 'Registered Nurse'`. -/
def nursePool (staff : List Staff) : List Staff :=
  staff.filter (fun s => s.role == "Registered Nurse")

/-- State threaded through the `generate_admissions` loops: the global
`admissions` list, the `admission_id` counter, and the random source. -/
structure AdmState where
  acc : List Admission
  nextId : Nat
  rng : Rng

/-- The body of the inner `for adm_num in range(num_admissions)` loop of
`generate_admissions`: all draws in source order.  The readmission check
reads `admissions[admission_id - 2]`, i.e. indexes the global list built so
far, exactly as the script does. -/
def mkAdmission (wardsT : List Ward) (diagnoses : List Diagnosis) (staff : List Staff)
    (beds : List Bed) (horizonDays : Nat) (pid : Nat) (admNum : Nat)
    (acc : List Admission) (admissionId : Nat) (r : Rng) : Admission × Rng :=
  let d0 := randN 0 horizonDays r
  let d1 := randN 0 23 d0.2
  let d2 := randN 0 59 d1.2
  let admissionDT : Int := ((d0.1 * 1440 + d1.1 * 60 + d2.1 : Nat) : Int)
  let dg := sampleOne diagnoses d2.2
  let dl := losFor dg.1.severity_level dg.2
  let dischargeDT : Int := admissionDT + (dl.1 : Int) * 1440
  let isRe : Bool :=
    if 0 < admNum then
      decide (daysBetween admissionDT ((acc.getD (admissionId - 2) default).discharge_datetime) ≤ 30)
    else false
  let wd := sampleOne wardsT dl.2
  let bd := sampleOne (beds.filter (fun b => b.ward_id == wd.1.ward_id)) wd.2
  let dr := sampleOne (doctorPool staff) bd.2
  let aty := choice admissionTypes dr.2
  let ns := randN 0 2 aty.2
  let sec := sampleK ns.1 diagnoses ns.2
  let dp := choice dispositions sec.2
  let ch := Rng.next dp.2
  (Admission.mk admissionId pid wd.1.ward_id bd.1.bed_id
    (Int.fdiv admissionDT 1440) admissionDT (Int.fdiv dischargeDT 1440) dischargeDT
    aty.1 dg.1.diagnosis_name dg.1.diagnosis_id (sec.1.map (fun d => d.diagnosis_id))
    dr.1.staff_id dl.1 isRe none dp.1 (500000 + ch.1 % 14500001), ch.2)

/-- One iteration of the inner admission loop: append the new admission to
the global list and advance the id counter. -/
def genOneAdmission (wardsT : List Ward) (diagnoses : List Diagnosis) (staff : List Staff)
    (beds : List Bed) (horizonDays : Nat) (pid : Nat) (admNum : Nat) (st : AdmState) : AdmState :=
  let p := mkAdmission wardsT diagnoses staff beds horizonDays pid admNum st.acc st.nextId st.rng
  AdmState.mk (st.acc ++ [p.1]) (st.nextId + 1) p.2

/-- The per-patient part of `generate_admissions`: draw
`num_admissions = randint(2, 5)` and run the inner loop. -/
def genPatientAdms (wardsT : List Ward) (diagnoses : List Diagnosis) (staff : List Staff)
    (beds : List Bed) (horizonDays : Nat) (pid : Nat) (st : AdmState) : AdmState :=
  let p := randN 2 5 st.rng
  loopN (genOneAdmission wardsT diagnoses staff beds horizonDays pid) 0 p.1
    (AdmState.mk st.acc st.nextId p.2)

/-- `generate_admissions`: iterate the patients in table order, starting
from the empty global list and `admission_id = 1`. -/
def generate_admissions (patients : List Patient) (wardsT : List Ward)
    (diagnoses : List Diagnosis) (staff : List Staff) (beds : List Bed)
    (horizonDays : Nat) (r : Rng) : List Admission × Rng :=
  let st := patients.foldl
    (fun st p => genPatientAdms wardsT diagnoses staff beds horizonDays p.patient_id st)
    (AdmState.mk [] 1 r)
  (st.acc, st.rng)

/-- One row of `fact_medication_administration`. -/
structure MarRecord where
  mar_id : Nat
  patient_id : Nat
  admission_id : Nat
  medication_id : Nat
  prescribed_by_staff_id : Nat
  administered_by_staff_id : Option Nat
  scheduled_datetime : Int
  administered_datetime : Option Int
  dosage : String
  route : String
  status : String
  reason_if_not_given : Option String
deriving DecidableEq, Inhabited

/-- Local list `routes` of `generate_medication_administration`. -/
def marRoutes : List String := ["PO", "IV", "IM", "SC", "Topical", "Inhaled"]

/-- Local list `statuses` (weighted toward `Given`). -/
def marStatuses : List String :=
  ["Given", "Given", "Given", "Given", "Given", "Missed", "Refused", "Held"]

/-- State threaded through the MAR loops. -/
structure MarState where
  rows : List MarRecord
  nextId : Nat
  rng : Rng

/-- Innermost dose body of `generate_medication_administration`: one dose of
one medication on one day of one sampled admission; draws in source order
(the `randint(-30, 60)` offset is only drawn when the status is `Given`). -/
def marDose (staff : List Staff) (adm : Admission) (med : Medication) (day : Nat)
    (dose : Nat) (st : MarState) : MarState :=
  let scheduled : Int := adm.admission_datetime + ((day * 1440 + 8 * 60 * dose : Nat) : Int)
  let stc := choice marStatuses st.rng
  let adq : Option Int × Rng :=
    if stc.1 == "Given" then
      let m := randI (-30) 60 stc.2
      (some (scheduled + m.1), m.2)
    else (none, stc.2)
  let pr := sampleOne (doctorPool staff) adq.2
  let nu := sampleOne (nursePool staff) pr.2
  let amt := choice [10, 25, 50, 100, 250, 500] nu.2
  let un := choice ["mg", "mcg", "units"] amt.2
  let rt := choice marRoutes un.2
  MarState.mk
    (st.rows ++ [MarRecord.mk st.nextId adm.patient_id adm.admission_id med.medication_id
      pr.1.staff_id (if stc.1 == "Given" then some nu.1.staff_id else none)
      scheduled adq.1 (toString amt.1 ++ " " ++ un.1) rt.1 stc.1
      (if stc.1 == "Missed" then some "Patient asleep"
       else if stc.1 == "Refused" then some "Patient refused"
       else if stc.1 == "Held" then some "Low BP" else none)])
    (st.nextId + 1) rt.2

/-- One admission-day of one medication: draw `doses_per_day = randint(1, 4)`
and emit that many doses. -/
def marDay (staff : List Staff) (adm : Admission) (med : Medication) (day : Nat)
    (st : MarState) : MarState :=
  let p := randN 1 4 st.rng
  loopN (marDose staff adm med day) 0 p.1 (MarState.mk st.rows st.nextId p.2)

/-- One medication over every day of the admission. -/
def marMed (staff : List Staff) (adm : Admission) (st : MarState) (med : Medication) : MarState :=
  loopN (marDay staff adm med) 0 adm.length_of_stay st

/-- One sampled admission: `num_meds = randint(3, 8)` medications sampled
without replacement, then doses per medication per day. -/
def marAdm (meds : List Medication) (staff : List Staff) (st : MarState)
    (adm : Admission) : MarState :=
  let p := randN 3 8 st.rng
  let q := sampleK p.1 meds p.2
  q.1.foldl (marMed staff adm) (MarState.mk st.rows st.nextId q.2)

/-- `generate_medication_administration`: sample 30% of the admissions, then
emit dose rows. -/
def generate_medication_administration (admissions : List Admission)
    (meds : List Medication) (staff : List Staff) (r : Rng) : List MarRecord × Rng :=
  let p := sampleFrac 3 10 admissions r
  let st := p.1.foldl (marAdm meds staff) (MarState.mk [] 1 p.2)
  (st.rows, st.rng)

/-- One row of `fact_vital_signs` (temperature in tenths of a degree). -/
structure VitalRecord where
  vital_id : Nat
  patient_id : Nat
  admission_id : Nat
  recorded_datetime : Int
  recorded_by_staff_id : Nat
  blood_pressure_systolic : Nat
  blood_pressure_diastolic : Nat
  heart_rate : Nat
  temperature_tenths : Nat
  respiratory_rate : Nat
  oxygen_saturation : Nat
  pain_level : Nat
  consciousness_level : String
deriving DecidableEq, Inhabited

/-- Local consciousness pool of `generate_vital_signs`. -/
def consciousnessLevels : List String := ["Alert", "Alert", "Alert", "Confused", "Lethargic"]

/-- State threaded through the vital-sign loops. -/
structure VitalState where
  rows : List VitalRecord
  nextId : Nat
  rng : Rng

/-- One vitals check: draws in source order.  `round(uniform(36.0, 39.0), 1)`
is modelled as a tenths draw in `[360, 390]`. -/
def vitalCheck (staff : List Staff) (adm : Admission) (day : Nat) (check : Nat)
    (st : VitalState) : VitalState :=
  let recorded : Int := adm.admission_datetime + ((day * 1440 + 6 * 60 * check : Nat) : Int)
  let nu := sampleOne (nursePool staff) st.rng
  let sys := randN 90 180 nu.2
  let dia := randN 60 120 sys.2
  let hr := randN 55 120 dia.2
  let tp := Rng.next hr.2
  let rr := randN 12 24 tp.2
  let ox := randN 88 100 rr.2
  let pn := randN 0 8 ox.2
  let cs := choice consciousnessLevels pn.2
  VitalState.mk
    (st.rows ++ [VitalRecord.mk st.nextId adm.patient_id adm.admission_id recorded nu.1.staff_id
      sys.1 dia.1 hr.1 (360 + tp.1 % 31) rr.1 ox.1 pn.1 cs.1])
    (st.nextId + 1) cs.2

/-- One day of vitals: `checks_per_day` checks (drawn once per admission,
outside the day loop, exactly as in the script). -/
def vitalDay (staff : List Staff) (adm : Admission) (checksPerDay : Nat) (day : Nat)
    (st : VitalState) : VitalState :=
  loopN (vitalCheck staff adm day) 0 checksPerDay st

/-- One sampled admission of `generate_vital_signs`. -/
def vitalAdm (staff : List Staff) (st : VitalState) (adm : Admission) : VitalState :=
  let p := randN 2 4 st.rng
  loopN (vitalDay staff adm p.1) 0 adm.length_of_stay (VitalState.mk st.rows st.nextId p.2)

/-- `generate_vital_signs`: sample 30% of the admissions. -/
def generate_vital_signs (admissions : List Admission) (staff : List Staff)
    (r : Rng) : List VitalRecord × Rng :=
  let p := sampleFrac 3 10 admissions r
  let st := p.1.foldl (vitalAdm staff) (VitalState.mk [] 1 p.2)
  (st.rows, st.rng)

/-- One row of `fact_daily_activities` (sleep hours in tenths). -/
structure ActivityRecord where
  activity_id : Nat
  patient_id : Nat
  admission_id : Nat
  activity_date : Int
  recorded_by_staff_id : Nat
  recorded_datetime : Int
  mobility_score : Nat
  mobility_notes : String
  self_care_score : Nat
  breakfast_percent_consumed : Nat
  lunch_percent_consumed : Nat
  dinner_percent_consumed : Nat
  feeding_assistance_needed : Bool
  bathroom_independence : Bool
  continent_bladder : Bool
  continent_bowel : Bool
  output_notes : String
  mental_status : String
  mood : String
  pain_level : Nat
  pain_location : String
  pain_management_effectiveness : Nat
  sleep_quality : Nat
  sleep_hours_tenths : Nat
  comments : Option String
deriving DecidableEq, Inhabited

/-- Local pools of `generate_daily_activities`. -/
def mentalStatuses : List String := ["Alert", "Alert", "Confused", "Lethargic", "Agitated"]

/-- Local mood pool. -/
def moods : List String := ["Cooperative", "Cooperative", "Anxious", "Depressed", "Irritable"]

/-- Local mobility-note pool. -/
def mobilityNotes : List String :=
  ["Walked to chair (assisted)", "Bedbound", "Walked hallway with walker", "Independent ambulation"]

/-- Local output-note pool. -/
def outputNotes : List String :=
  ["Urination normal", "No BM today", "Catheter in place", "Normal output"]

/-- Local pain-location pool. -/
def painLocations : List String := ["None", "Abdomen", "Hip", "Chest", "Back", "Head"]

/-- The fixed comment pool of `generate_daily_activities`. -/
def possibleComments : List String := [
  "Patient ambulated to hallway with walker, good progress today.",
  "Patient complained of pain in right hip during PT session.",
  "Family visited today, patient mood improved significantly.",
  "Patient required extensive assistance with morning hygiene.",
  "Good appetite today, finished most meals independently.",
  "Patient expressed desire to go home, education provided.",
  "Wound dressing changed, healing well per nursing assessment.",
  "Patient participated in physical therapy exercises reluctantly.",
  "Overnight sleep interrupted 3x for medications/vitals.",
  "Patient displayed confusion this morning, resolved by afternoon.",
  "No bowel movement for 2 days, physician notified.",
  "Patient tolerated ambulation better today vs yesterday."]

/-- State threaded through the daily-activity loops. -/
structure ActivityState where
  rows : List ActivityRecord
  nextId : Nat
  rng : Rng

/-- One day of `generate_daily_activities`: draws in source order (the
conditional expression evaluates `random.random()` first and only draws a
comment when the 70% branch is taken). -/
def activityDay (staff : List Staff) (adm : Admission) (day : Nat)
    (st : ActivityState) : ActivityState :=
  let nu := sampleOne (nursePool staff) st.rng
  let mos := randN 1 5 nu.2
  let mon := choice mobilityNotes mos.2
  let scs := randN 1 5 mon.2
  let bk := randN 25 100 scs.2
  let lu := randN 25 100 bk.2
  let di := randN 25 100 lu.2
  let fa := choice [true, false] di.2
  let bi := choice [true, true, false] fa.2
  let cbl := choice [true, true, true, false] bi.2
  let cbo := choice [true, true, true, false] cbl.2
  let ons := choice outputNotes cbo.2
  let ms := choice mentalStatuses ons.2
  let md := choice moods ms.2
  let pl := randN 0 7 md.2
  let plo := choice painLocations pl.2
  let pme := randN 1 5 plo.2
  let sq := randN 2 5 pme.2
  let sh := Rng.next sq.2
  let cg := randGt 3 sh.2
  let cm : Option String × Rng :=
    if cg.1 then
      let c := choice possibleComments cg.2
      (some c.1, c.2)
    else (none, cg.2)
  ActivityState.mk
    (st.rows ++ [ActivityRecord.mk st.nextId adm.patient_id adm.admission_id
      (Int.fdiv (adm.admission_datetime + ((day * 1440 : Nat) : Int)) 1440) nu.1.staff_id
      (adm.admission_datetime + ((day * 1440 + 20 * 60 : Nat) : Int))
      mos.1 mon.1 scs.1 bk.1 lu.1 di.1 fa.1 bi.1 cbl.1 cbo.1 ons.1 ms.1 md.1
      pl.1 plo.1 pme.1 sq.1 (40 + sh.1 % 51) cm.1])
    (st.nextId + 1) cm.2

/-- One sampled admission of `generate_daily_activities`. -/
def activityAdm (staff : List Staff) (st : ActivityState) (adm : Admission) : ActivityState :=
  loopN (activityDay staff adm) 0 adm.length_of_stay st

/-- `generate_daily_activities`: sample 40% of the admissions. -/
def generate_daily_activities (admissions : List Admission) (staff : List Staff)
    (r : Rng) : List ActivityRecord × Rng :=
  let p := sampleFrac 4 10 admissions r
  let st := p.1.foldl (activityAdm staff) (ActivityState.mk [] 1 p.2)
  (st.rows, st.rng)

/-- One row of `fact_procedures` (duration may be negative after the random
offset, exactly as in the script; charges in cents). -/
structure ProcedureEvent where
  procedure_event_id : Nat
  patient_id : Nat
  admission_id : Nat
  procedure_id : Nat
  performed_by_staff_id : Nat
  scheduled_datetime : Int
  actual_datetime : Int
  duration_minutes : Int
  outcome : String
  complications : Option String
  notes : String
  procedure_charges_cents : Nat
deriving DecidableEq, Inhabited

/-- Local outcome pool of `generate_procedure_events`. -/
def procOutcomes : List String :=
  ["Successful", "Successful", "Successful", "Complicated", "Aborted"]

/-- State threaded through the procedure-event loops. -/
structure ProcState where
  rows : List ProcedureEvent
  nextId : Nat
  rng : Rng

/-- One procedure of one sampled admission. -/
def procOne (procedures : List Procedure) (staff : List Staff) (adm : Admission)
    (_procNum : Nat) (st : ProcState) : ProcState :=
  let pc := sampleOne procedures st.rng
  let dr := sampleOne (doctorPool staff) pc.2
  let dd := randN 0 (adm.length_of_stay - 1) dr.2
  let hh := randN 8 17 dd.2
  let scheduled : Int := adm.admission_datetime + ((dd.1 * 1440 + hh.1 * 60 : Nat) : Int)
  let off := randI (-30) 120 hh.2
  let du := randI (-30) 60 off.2
  let oc := choice procOutcomes du.2
  let cg := randGt 9 oc.2
  ProcState.mk
    (st.rows ++ [ProcedureEvent.mk st.nextId adm.patient_id adm.admission_id
      pc.1.procedure_id dr.1.staff_id scheduled (scheduled + off.1)
      ((pc.1.avg_duration_minutes : Int) + du.1) oc.1
      (if cg.1 then some "Minor bleeding" else none)
      "Procedure completed as planned" pc.1.base_cost_cents])
    (st.nextId + 1) cg.2

/-- One sampled admission of `generate_procedure_events`:
`num_procedures = randint(1, 3)`. -/
def procAdm (procedures : List Procedure) (staff : List Staff) (st : ProcState)
    (adm : Admission) : ProcState :=
  let p := randN 1 3 st.rng
  loopN (procOne procedures staff adm) 0 p.1 (ProcState.mk st.rows st.nextId p.2)

/-- `generate_procedure_events`: sample 40% of the admissions. -/
def generate_procedure_events (admissions : List Admission) (procedures : List Procedure)
    (staff : List Staff) (r : Rng) : List ProcedureEvent × Rng :=
  let p := sampleFrac 4 10 admissions r
  let st := p.1.foldl (procAdm procedures staff) (ProcState.mk [] 1 p.2)
  (st.rows, st.rng)

/-- One row of `fact_lab_results` (test value in tenths). -/
structure LabRecord where
  lab_id : Nat
  patient_id : Nat
  admission_id : Nat
  test_type : String
  test_name : String
  ordered_by_staff_id : Nat
  collected_datetime : Int
  resulted_datetime : Int
  test_value_tenths : Nat
  unit_of_measure : String
  reference_range : String
  abnormal_flag : String
  lab_department : String
deriving DecidableEq, Inhabited

/-- The fixed `(test_type, test_name, reference_range, unit)` catalog of
`generate_lab_results`. -/
def labTestTypes : List (String × String × String × String) := [
  ("CBC", "Hemoglobin", "12-16 g/dL", "g/dL"),
  ("CBC", "WBC Count", "4-11 K/uL", "K/uL"),
  ("BMP", "Sodium", "135-145 mEq/L", "mEq/L"),
  ("BMP", "Potassium", "3.5-5.0 mEq/L", "mEq/L"),
  ("BMP", "Glucose", "70-100 mg/dL", "mg/dL"),
  ("Lipid Panel", "Total Cholesterol", "<200 mg/dL", "mg/dL"),
  ("Lipid Panel", "HDL", ">40 mg/dL", "mg/dL"),
  ("Liver Function", "ALT", "7-56 U/L", "U/L")]

/-- Local abnormal-flag pool (weighted toward `Normal`). -/
def abnormalFlags : List String := ["Normal", "Normal", "Normal", "High", "Low", "Critical"]

/-- State threaded through the lab loops. -/
structure LabState where
  rows : List LabRecord
  nextId : Nat
  rng : Rng

/-- One lab panel of one sampled admission. -/
def labOne (staff : List Staff) (adm : Admission) (_panel : Nat) (st : LabState) : LabState :=
  let ts := choice labTestTypes st.rng
  let dr := sampleOne (doctorPool staff) ts.2
  let dd := randN 0 (adm.length_of_stay - 1) dr.2
  let hh := randN 6 10 dd.2
  let collected : Int := adm.admission_datetime + ((dd.1 * 1440 + hh.1 * 60 : Nat) : Int)
  let rh := randN 2 24 hh.2
  let resulted : Int := collected + ((rh.1 * 60 : Nat) : Int)
  let tv := Rng.next rh.2
  let af := choice abnormalFlags tv.2
  LabState.mk
    (st.rows ++ [LabRecord.mk st.nextId adm.patient_id adm.admission_id
      ts.1.1 ts.1.2.1 dr.1.staff_id collected resulted (500 + tv.1 % 1501)
      ts.1.2.2.2 ts.1.2.2.1 af.1 "Clinical Lab"])
    (st.nextId + 1) af.2

/-- One sampled admission of `generate_lab_results`:
`num_lab_panels = randint(1, 4)`. -/
def labAdm (staff : List Staff) (st : LabState) (adm : Admission) : LabState :=
  let p := randN 1 4 st.rng
  loopN (labOne staff adm) 0 p.1 (LabState.mk st.rows st.nextId p.2)

/-- `generate_lab_results`: sample 50% of the admissions. -/
def generate_lab_results (admissions : List Admission) (staff : List Staff)
    (r : Rng) : List LabRecord × Rng :=
  let p := sampleFrac 5 10 admissions r
  let st := p.1.foldl (labAdm staff) (LabState.mk [] 1 p.2)
  (st.rows, st.rng)

/-- One row of `fact_care_plan_goals`. -/
structure GoalRecord where
  goal_id : Nat
  patient_id : Nat
  admission_id : Nat
  goal_type : String
  goal_description : String
  target_date : Int
  status : String
  progress_pct : Nat
  created_by_staff_id : Nat
  created_datetime : Int
  last_updated_datetime : Int
deriving DecidableEq, Inhabited

/-- The fixed `(goal_type, goal_description)` templates of
`generate_care_plan_goals`. -/
def goalTemplates : List (String × String) := [
  ("Mobility", "Walk 50 feet independently by discharge"),
  ("Mobility", "Transfer from bed to chair with minimal assistance"),
  ("Pain Management", "Maintain pain level below 4/10"),
  ("Wound Healing", "Wound fully healed within 2 weeks"),
  ("Self-Care", "Complete morning hygiene independently"),
  ("Nutrition", "Consume 75% of meals without assistance"),
  ("Education", "Patient verbalizes understanding of discharge medications")]

/-- Local status pool (weighted toward `In Progress`). -/
def goalStatuses : List String :=
  ["Not Started", "In Progress", "In Progress", "In Progress", "Achieved", "Discontinued"]

/-- State threaded through the care-goal loops. -/
structure GoalState where
  rows : List GoalRecord
  nextId : Nat
  rng : Rng

/-- One care goal of one sampled admission: the progress draw only happens
in the `In Progress` branch, exactly as in the script. -/
def goalOne (staff : List Staff) (adm : Admission) (_g : Nat) (st : GoalState) : GoalState :=
  let tpl := choice goalTemplates st.rng
  let nu := sampleOne (nursePool staff) tpl.2
  let stc := choice goalStatuses nu.2
  let pg : Nat × Rng :=
    if stc.1 == "Achieved" then (100, stc.2)
    else if stc.1 == "In Progress" then randN 30 90 stc.2
    else (0, stc.2)
  let cr := randN 2 24 pg.2
  let lu := randN 1 adm.length_of_stay cr.2
  GoalState.mk
    (st.rows ++ [GoalRecord.mk st.nextId adm.patient_id adm.admission_id
      tpl.1.1 tpl.1.2 adm.discharge_date stc.1 pg.1 nu.1.staff_id
      (adm.admission_datetime + ((cr.1 * 60 : Nat) : Int))
      (adm.admission_datetime + ((lu.1 * 1440 : Nat) : Int))])
    (st.nextId + 1) lu.2

/-- One sampled admission of `generate_care_plan_goals`:
`num_goals = randint(2, 4)`. -/
def goalAdm (staff : List Staff) (st : GoalState) (adm : Admission) : GoalState :=
  let p := randN 2 4 st.rng
  loopN (goalOne staff adm) 0 p.1 (GoalState.mk st.rows st.nextId p.2)

/-- `generate_care_plan_goals`: sample 60% of the admissions. -/
def generate_care_plan_goals (admissions : List Admission) (staff : List Staff)
    (r : Rng) : List GoalRecord × Rng :=
  let p := sampleFrac 6 10 admissions r
  let st := p.1.foldl (goalAdm staff) (GoalState.mk [] 1 p.2)
  (st.rows, st.rng)

/-! ## Full pipeline (`main`) -/

/-- The full generated table set (the 15 CSV outputs of the script). -/
structure Tables where
  dim_patients : List Patient
  dim_staff : List Staff
  dim_wards : List Ward
  dim_medications : List Medication
  dim_procedures : List Procedure
  dim_diagnoses : List Diagnosis
  dim_beds : List Bed
  dim_date : List Nat
  fact_admissions : List Admission
  fact_medication_administration : List MarRecord
  fact_vital_signs : List VitalRecord
  fact_daily_activities : List ActivityRecord
  fact_procedures : List ProcedureEvent
  fact_lab_results : List LabRecord
  fact_care_plan_goals : List GoalRecord

/-- `main`: generate every table in source order, threading the seeded
random source through each step; the output is a pure function of the
configuration and the seeded stream. -/
def generateAll (numPatients numStaff numMeds numProcs horizonDays : Nat) (r : Rng) : Tables :=
  let pats := generate_patients numPatients r
  let stf := generate_staff numStaff pats.2
  let wrds := generate_wards stf.2
  let meds := generate_medications numMeds wrds.2
  let prcs := generate_procedures numProcs meds.2
  let diags := generate_diagnoses
  let beds := generate_beds prcs.2
  let dates := generate_date_dimension horizonDays
  let adms := generate_admissions pats.1 wrds.1 diags stf.1 beds.1 horizonDays beds.2
  let mar := generate_medication_administration adms.1 meds.1 stf.1 adms.2
  let vits := generate_vital_signs adms.1 stf.1 mar.2
  let acts := generate_daily_activities adms.1 stf.1 vits.2
  let pevs := generate_procedure_events adms.1 prcs.1 stf.1 acts.2
  let labs := generate_lab_results adms.1 stf.1 pevs.2
  let gols := generate_care_plan_goals adms.1 stf.1 labs.2
  Tables.mk pats.1 stf.1 wrds.1 meds.1 prcs.1 diags beds.1 dates adms.1
    mar.1 vits.1 acts.1 pevs.1 labs.1 gols.1

/-! ## Basic sampling lemmas -/

theorem randN_lower (a b : Nat) (r : Rng) : a ≤ (randN a b r).1 :=
  Nat.le_add_right a _

theorem randN_upper {a b : Nat} (h : a ≤ b) (r : Rng) : (randN a b r).1 ≤ b := by
  have hm : (r.next.1) % (b + 1 - a) < b + 1 - a := Nat.mod_lt _ (by omega)
  simp only [randN]
  omega

theorem randI_lower (a b : Int) (r : Rng) : a ≤ (randI a b r).1 := by
  simp only [randI]
  have : (0 : Int) ≤ ((r.next.1 % (b + 1 - a).toNat : Nat) : Int) := Int.ofNat_nonneg _
  omega

theorem randI_upper {a b : Int} (h : a ≤ b) (r : Rng) : (randI a b r).1 ≤ b := by
  have hpos : (0 : Int) < b + 1 - a := by omega
  have ht : ((b + 1 - a).toNat : Int) = b + 1 - a := Int.toNat_of_nonneg (by omega)
  have htn : 0 < (b + 1 - a).toNat := by omega
  have hm : r.next.1 % (b + 1 - a).toNat < (b + 1 - a).toNat := Nat.mod_lt _ htn
  have hmi : ((r.next.1 % (b + 1 - a).toNat : Nat) : Int) < ((b + 1 - a).toNat : Int) :=
    Int.ofNat_lt.mpr hm
  simp only [randI]
  omega

theorem choice_mem {α : Type} [Inhabited α] {l : List α} (h : l ≠ []) (r : Rng) :
    (choice l r).1 ∈ l := by
  have hl : 0 < l.length := List.length_pos.mpr h
  have hi : r.next.1 % l.length < l.length := Nat.mod_lt _ hl
  simp only [choice]
  rw [List.getD_eq_getElem _ _ hi]
  exact l.get_mem _ hi

theorem sampleOne_mem {α : Type} [Inhabited α] {l : List α} (h : l ≠ []) (r : Rng) :
    (sampleOne l r).1 ∈ l :=
  choice_mem h r

theorem sampleK_subset {α : Type} [Inhabited α] :
    ∀ (k : Nat) (l : List α) (r : Rng), ∀ x ∈ (sampleK k l r).1, x ∈ l := by
  intro k
  induction k with
  | zero => intro l r x hx; simp [sampleK] at hx
  | succ k ih =>
    intro l r x hx
    by_cases he : l.isEmpty
    · simp [sampleK, he] at hx
    · simp only [sampleK, he, if_false] at hx
      have hne : l ≠ [] := by
        cases l with
        | nil => simp at he
        | cons a l => simp
      have hl : 0 < l.length := List.length_pos.mpr hne
      have hi : r.next.1 % l.length < l.length := Nat.mod_lt _ hl
      rcases List.mem_cons.mp hx with h1 | h2
      · rw [h1, List.getD_eq_getElem _ _ hi]; exact l.get_mem _ hi
      · exact (List.eraseIdx_sublist l _).subset (ih _ _ x h2)

theorem sampleK_length_le {α : Type} [Inhabited α] :
    ∀ (k : Nat) (l : List α) (r : Rng), (sampleK k l r).1.length ≤ k := by
  intro k
  induction k with
  | zero => intro l r; simp [sampleK]
  | succ k ih =>
    intro l r
    by_cases he : l.isEmpty
    · simp [sampleK, he]
    · simp only [sampleK, he, if_false, List.length_cons]
      exact Nat.succ_le_succ (ih _ _)

theorem sampleFrac_subset {α : Type} [Inhabited α] (num den : Nat) (l : List α) (r : Rng) :
    ∀ x ∈ (sampleFrac num den l r).1, x ∈ l :=
  sampleK_subset _ l r

/-! ## Loop invariants -/

theorem loopN_inv {σ : Type} (f : Nat → σ → σ) (P : σ → Prop)
    (h : ∀ i s, P s → P (f i s)) :
    ∀ (n i : Nat) (s : σ), P s → P (loopN f i n s) := by
  intro n
  induction n with
  | zero => intro i s hs; exact hs
  | succ n ih => intro i s hs; exact ih (i + 1) (f i s) (h i s hs)

theorem loopN_inv_lt {σ : Type} (f : Nat → σ → σ) (P : σ → Prop) (n0 : Nat)
    (h : ∀ i s, i < n0 → P s → P (f i s)) :
    ∀ (n i : Nat) (s : σ), i + n ≤ n0 → P s → P (loopN f i n s) := by
  intro n
  induction n with
  | zero => intro i s _ hs; exact hs
  | succ n ih =>
    intro i s hle hs
    exact ih (i + 1) (f i s) (by omega) (h i s (by omega) hs)

theorem foldl_inv {α σ : Type} (g : σ → α → σ) (P : σ → Prop) :
    ∀ (l : List α), (∀ a ∈ l, ∀ s, P s → P (g s a)) → ∀ s, P s → P (l.foldl g s) := by
  intro l
  induction l with
  | nil => intro _ s hs; exact hs
  | cons a l ih =>
    intro h s hs
    exact ih (fun x hx t ht => h x (List.mem_cons_of_mem a hx) t ht) (g s a)
      (h a (List.mem_cons_self a l) s hs)

/-! ## Admission generator lemmas -/

/-- The severity → stay-length-range table used by `generate_admissions`
(`Critical → [5,21]`, `Serious → [3,14]`, otherwise `[1,7]`). -/
def losRange (sev : String) : Nat × Nat :=
  if sev == "Critical" then (5, 21) else if sev == "Serious" then (3, 14) else (1, 7)

theorem losFor_bounds (sev : String) (r : Rng) :
    (losRange sev).1 ≤ (losFor sev r).1 ∧ (losFor sev r).1 ≤ (losRange sev).2 := by
  by_cases h1 : (sev == "Critical") = true
  · simp only [losFor, losRange, h1, if_true]
    exact ⟨randN_lower _ _ _, randN_upper (by norm_num) _⟩
  · by_cases h2 : (sev == "Serious") = true
    · simp only [losFor, losRange, h1, h2, if_true, Bool.false_eq_true, if_false]
      exact ⟨randN_lower _ _ _, randN_upper (by norm_num) _⟩
    · simp only [losFor, losRange, h1, h2, Bool.false_eq_true, if_false]
      exact ⟨randN_lower _ _ _, randN_upper (by norm_num) _⟩

theorem losRange_pos (sev : String) : 1 ≤ (losRange sev).1 := by
  by_cases h1 : (sev == "Critical") = true
  · simp [losRange, h1]
  · by_cases h2 : (sev == "Serious") = true
    · simp [losRange, h1, h2]
    · simp [losRange, h1, h2]

section MkAdmissionFields

variable (W : List Ward) (D : List Diagnosis) (S : List Staff) (B : List Bed)
variable (hD : Nat) (pid admNum : Nat) (acc : List Admission) (aid : Nat) (r : Rng)

theorem mkAdmission_admission_id :
    (mkAdmission W D S B hD pid admNum acc aid r).1.admission_id = aid := rfl

theorem mkAdmission_patient_id :
    (mkAdmission W D S B hD pid admNum acc aid r).1.patient_id = pid := rfl

theorem mkAdmission_readmission_days :
    (mkAdmission W D S B hD pid admNum acc aid r).1.readmission_days_since_discharge = none := rfl

theorem mkAdmission_discharge_eq :
    (mkAdmission W D S B hD pid admNum acc aid r).1.discharge_datetime =
      (mkAdmission W D S B hD pid admNum acc aid r).1.admission_datetime +
        ((mkAdmission W D S B hD pid admNum acc aid r).1.length_of_stay : Int) * 1440 := rfl

theorem mkAdmission_is_readmission :
    (mkAdmission W D S B hD pid admNum acc aid r).1.is_readmission =
      (if 0 < admNum then
        decide (daysBetween (mkAdmission W D S B hD pid admNum acc aid r).1.admission_datetime
          ((acc.getD (aid - 2) default).discharge_datetime) ≤ 30)
       else false) := rfl

end MkAdmissionFields

theorem doctorPool_mem {S : List Staff} {s : Staff} (h : s ∈ doctorPool S) :
    s ∈ S ∧ (s.role = "Attending Physician" ∨ s.role = "Resident") := by
  obtain ⟨hs, hp⟩ := List.mem_filter.mp h
  refine ⟨hs, ?_⟩
  simpa using hp

theorem nursePool_mem {S : List Staff} {s : Staff} (h : s ∈ nursePool S) :
    s ∈ S ∧ s.role = "Registered Nurse" := by
  obtain ⟨hs, hp⟩ := List.mem_filter.mp h
  refine ⟨hs, ?_⟩
  simpa using hp

theorem bedFilter_mem {B : List Bed} {w : Nat} {b : Bed}
    (h : b ∈ B.filter (fun b => b.ward_id == w)) : b ∈ B ∧ b.ward_id = w := by
  obtain ⟨hb, hp⟩ := List.mem_filter.mp h
  refine ⟨hb, ?_⟩
  simpa using hp

section MkAdmissionSampling

variable {W : List Ward} {D : List Diagnosis} {S : List Staff} {B : List Bed}
variable (hD : Nat) (pid admNum : Nat) (acc : List Admission) (aid : Nat) (r : Rng)

theorem mkAdmission_los_bounds :
    1 ≤ (mkAdmission W D S B hD pid admNum acc aid r).1.length_of_stay := by
  exact le_trans (losRange_pos _) (losFor_bounds _ _).1

theorem mkAdmission_diagnosis (hne : D ≠ []) :
    ∃ d ∈ D, (mkAdmission W D S B hD pid admNum acc aid r).1.primary_diagnosis_id = d.diagnosis_id ∧
      (losRange d.severity_level).1 ≤ (mkAdmission W D S B hD pid admNum acc aid r).1.length_of_stay ∧
      (mkAdmission W D S B hD pid admNum acc aid r).1.length_of_stay ≤ (losRange d.severity_level).2 := by
  refine ⟨_, sampleOne_mem hne _, rfl, ?_, ?_⟩
  · exact (losFor_bounds _ _).1
  · exact (losFor_bounds _ _).2

theorem mkAdmission_ward (hW : W ≠ []) :
    ∃ w ∈ W, (mkAdmission W D S B hD pid admNum acc aid r).1.ward_id = w.ward_id :=
  ⟨_, sampleOne_mem hW _, rfl⟩

theorem mkAdmission_bed (hW : W ≠ [])
    (hB : ∀ w ∈ W, B.filter (fun b => b.ward_id == w.ward_id) ≠ []) :
    ∃ b ∈ B, (mkAdmission W D S B hD pid admNum acc aid r).1.bed_id = b.bed_id ∧
      b.ward_id = (mkAdmission W D S B hD pid admNum acc aid r).1.ward_id := by
  refine ⟨_, ?_, rfl, ?_⟩
  · exact (bedFilter_mem (sampleOne_mem (hB _ (sampleOne_mem hW _)) _)).1
  · exact (bedFilter_mem (sampleOne_mem (hB _ (sampleOne_mem hW _)) _)).2

theorem mkAdmission_doctor (hS : doctorPool S ≠ []) :
    ∃ s ∈ S, (mkAdmission W D S B hD pid admNum acc aid r).1.attending_doctor_id = s.staff_id ∧
      (s.role = "Attending Physician" ∨ s.role = "Resident") := by
  refine ⟨_, ?_, rfl, ?_⟩
  · exact (doctorPool_mem (sampleOne_mem hS _)).1
  · exact (doctorPool_mem (sampleOne_mem hS _)).2

theorem mkAdmission_secondary :
    (∀ i ∈ (mkAdmission W D S B hD pid admNum acc aid r).1.secondary_diagnosis_ids,
      ∃ d ∈ D, i = d.diagnosis_id) ∧
    (mkAdmission W D S B hD pid admNum acc aid r).1.secondary_diagnosis_ids.length ≤ 2 := by
  constructor
  · intro i hi
    obtain ⟨d, hd, hdi⟩ := List.mem_map.mp hi
    exact ⟨d, sampleK_subset _ _ _ d hd, hdi.symm⟩
  · show (List.map _ (sampleK _ _ _).1).length ≤ 2
    rw [List.length_map]
    exact le_trans (sampleK_length_le _ _ _) (randN_upper (by norm_num) _)

end MkAdmissionSampling

/-! ## Per-admission facts and the readmission block structure -/

/-- Everything that holds of each single generated admission row, with the
spec's non-empty-input preconditions attached to the conjuncts that need
them (the script would raise on an empty sampling pool; the spec documents
non-empty upstream tables as a required precondition). -/
def admissionFacts (W : List Ward) (D : List Diagnosis) (S : List Staff) (B : List Bed)
    (a : Admission) : Prop :=
  a.discharge_datetime = a.admission_datetime + (a.length_of_stay : Int) * 1440 ∧
  1 ≤ a.length_of_stay ∧
  a.readmission_days_since_discharge = none ∧
  (D ≠ [] → ∃ d ∈ D, a.primary_diagnosis_id = d.diagnosis_id ∧
    (losRange d.severity_level).1 ≤ a.length_of_stay ∧
    a.length_of_stay ≤ (losRange d.severity_level).2) ∧
  (W ≠ [] → ∃ w ∈ W, a.ward_id = w.ward_id) ∧
  (W ≠ [] → (∀ w ∈ W, B.filter (fun b => b.ward_id == w.ward_id) ≠ []) →
    ∃ b ∈ B, a.bed_id = b.bed_id ∧ b.ward_id = a.ward_id) ∧
  (doctorPool S ≠ [] → ∃ s ∈ S, a.attending_doctor_id = s.staff_id ∧
    (s.role = "Attending Physician" ∨ s.role = "Resident")) ∧
  (∀ i ∈ a.secondary_diagnosis_ids, ∃ d ∈ D, i = d.diagnosis_id) ∧
  a.secondary_diagnosis_ids.length ≤ 2

theorem mkAdmission_facts (W : List Ward) (D : List Diagnosis) (S : List Staff)
    (B : List Bed) (hD pid admNum : Nat) (acc : List Admission) (aid : Nat) (r : Rng) :
    admissionFacts W D S B (mkAdmission W D S B hD pid admNum acc aid r).1 :=
  ⟨mkAdmission_discharge_eq W D S B hD pid admNum acc aid r,
   mkAdmission_los_bounds hD pid admNum acc aid r,
   mkAdmission_readmission_days W D S B hD pid admNum acc aid r,
   fun h => mkAdmission_diagnosis hD pid admNum acc aid r h,
   fun h => mkAdmission_ward hD pid admNum acc aid r h,
   fun h hB => mkAdmission_bed hD pid admNum acc aid r h hB,
   fun h => mkAdmission_doctor hD pid admNum acc aid r h,
   (mkAdmission_secondary hD pid admNum acc aid r).1,
   (mkAdmission_secondary hD pid admNum acc aid r).2⟩

/-- The gap test the generator applies between an admission and the
previous discharge: `(admission - prev_discharge).days <= 30`. -/
def readmitFlagSpec (a prev : Admission) : Bool :=
  decide (daysBetween a.admission_datetime prev.discharge_datetime ≤ 30)

/-- Every element of the list carries the readmission flag dictated by the
gap to its immediate predecessor (the first argument seeds the
predecessor). -/
def consecOk : Admission → List Admission → Bool
  | _, [] => true
  | prev, a :: l => (a.is_readmission == readmitFlagSpec a prev) && consecOk a l

/-- A per-patient admission block is well-flagged: the first admission is
never flagged, and each later admission is flagged iff the gap to the
immediately preceding admission of the block is at most 30 days. -/
def blockOk : List Admission → Bool
  | [] => true
  | a :: l => (a.is_readmission == false) && consecOk a l

theorem getD_last {α : Type} {l : List α} {x : α} (h : l.getLast? = some x) (d : α) :
    l.getD (l.length - 1) d = x := by
  have h2 : l.get? (l.length - 1) = some x := by rw [List.get?_eq_getElem?, ← List.getLast?_eq_getElem?]; exact h
  obtain ⟨hlt, hx⟩ := List.get?_eq_some.mp h2
  rw [List.getD_eq_getElem _ _ hlt]
  simpa using hx

/-- Specification of the inner `for adm_num in range(num_admissions)` loop
of `generate_admissions`: it appends a block of `c` admissions for patient
`pid` to the global list, keeps `admission_id = len + 1`, each appended row
satisfies `admissionFacts`, and the readmission flags inside the block are
exactly the ≤30-day-gap flags (seeded by the last element of the incoming
global list when the loop does not start at `adm_num = 0`). -/
theorem genLoop_spec (W : List Ward) (D : List Diagnosis) (S : List Staff) (B : List Bed)
    (hD : Nat) (pid : Nat) :
    ∀ (c admNum : Nat) (st : AdmState), st.nextId = st.acc.length + 1 →
    ∃ blk,
      (loopN (genOneAdmission W D S B hD pid) admNum c st).acc = st.acc ++ blk ∧
      (loopN (genOneAdmission W D S B hD pid) admNum c st).nextId =
        (loopN (genOneAdmission W D S B hD pid) admNum c st).acc.length + 1 ∧
      blk.length = c ∧
      (∀ a ∈ blk, a.patient_id = pid ∧ admissionFacts W D S B a) ∧
      (admNum = 0 → blockOk blk = true) ∧
      (admNum ≠ 0 → ∀ prev, st.acc.getLast? = some prev → consecOk prev blk = true) := by
  intro c
  induction c with
  | zero =>
    intro admNum st hst
    exact ⟨[], by simp [loopN], by simpa [loopN] using hst, rfl, by simp,
      fun _ => rfl, fun _ _ _ => rfl⟩
  | succ c ih =>
    intro admNum st hst
    have hstep : loopN (genOneAdmission W D S B hD pid) admNum (c + 1) st =
        loopN (genOneAdmission W D S B hD pid) (admNum + 1) c
          (genOneAdmission W D S B hD pid admNum st) := rfl
    set a := (mkAdmission W D S B hD pid admNum st.acc st.nextId st.rng).1 with ha
    have hacc1 : (genOneAdmission W D S B hD pid admNum st).acc = st.acc ++ [a] := rfl
    have hinv1 : (genOneAdmission W D S B hD pid admNum st).nextId =
        (genOneAdmission W D S B hD pid admNum st).acc.length + 1 := by
      show st.nextId + 1 = (st.acc ++ [a]).length + 1
      rw [List.length_append, hst]
      simp
    obtain ⟨blk', hb1, hb2, hb3, hb4, _, hb6⟩ :=
      ih (admNum + 1) (genOneAdmission W D S B hD pid admNum st) hinv1
    have hlast : (genOneAdmission W D S B hD pid admNum st).acc.getLast? = some a := by
      rw [hacc1]
      exact List.getLast?_concat _
    have hconsec : consecOk a blk' = true := hb6 (by omega) a hlast
    refine ⟨a :: blk', ?_, ?_, ?_, ?_, ?_, ?_⟩
    · rw [hstep, hb1, hacc1, List.append_assoc]
      rfl
    · rw [hstep]; exact hb2
    · simpa using hb3
    · intro x hx
      rcases List.mem_cons.mp hx with h1 | h2
      · rw [h1, ha]
        exact ⟨mkAdmission_patient_id W D S B hD pid admNum st.acc st.nextId st.rng,
          mkAdmission_facts W D S B hD pid admNum st.acc st.nextId st.rng⟩
      · exact hb4 x h2
    · intro h0
      show ((a.is_readmission == false) && consecOk a blk') = true
      have hre : a.is_readmission = false := by
        rw [ha, mkAdmission_is_readmission]
        simp [h0]
      rw [hre, hconsec]
      rfl
    · intro hne prev hprev
      show ((a.is_readmission == readmitFlagSpec a prev) && consecOk a blk') = true
      have hre : a.is_readmission = readmitFlagSpec a prev := by
        rw [ha, mkAdmission_is_readmission]
        have hidx : st.nextId - 2 = st.acc.length - 1 := by omega
        rw [if_pos (by omega : 0 < admNum), hidx, getD_last hprev]
        rfl
      rw [hre, hconsec]
      simp

/-- Specification of the per-patient part of `generate_admissions`: a block
of 2 to 5 admissions for the patient is appended, every row satisfies
`admissionFacts`, and the block's readmission flags are the ≤30-day-gap
flags with the first admission unflagged. -/
theorem genPatientAdms_spec (W : List Ward) (D : List Diagnosis) (S : List Staff)
    (B : List Bed) (hD : Nat) (pid : Nat) (st : AdmState)
    (hst : st.nextId = st.acc.length + 1) :
    ∃ blk,
      (genPatientAdms W D S B hD pid st).acc = st.acc ++ blk ∧
      (genPatientAdms W D S B hD pid st).nextId =
        (genPatientAdms W D S B hD pid st).acc.length + 1 ∧
      2 ≤ blk.length ∧ blk.length ≤ 5 ∧
      (∀ a ∈ blk, a.patient_id = pid ∧ admissionFacts W D S B a) ∧
      blockOk blk = true := by
  have hun : genPatientAdms W D S B hD pid st =
      loopN (genOneAdmission W D S B hD pid) 0 (randN 2 5 st.rng).1
        (AdmState.mk st.acc st.nextId (randN 2 5 st.rng).2) := rfl
  obtain ⟨blk, h1, h2, h3, h4, h5, _⟩ :=
    genLoop_spec W D S B hD pid (randN 2 5 st.rng).1 0
      (AdmState.mk st.acc st.nextId (randN 2 5 st.rng).2) hst
  refine ⟨blk, ?_, ?_, ?_, ?_, h4, h5 rfl⟩
  · rw [hun]; exact h1
  · rw [hun]; exact h2
  · rw [h3]; exact randN_lower _ _ _
  · rw [h3]; exact randN_upper (by norm_num) _

/-- Specification of the whole `generate_admissions` fold over the patient
table: per-admission facts, 2–5 admissions per patient, and — when patient
ids are distinct, as they are for the generated patient table — every
per-patient slice of the output (in emission order) is a well-flagged
readmission block of size 2 to 5. -/
theorem admFold_spec (W : List Ward) (D : List Diagnosis) (S : List Staff) (B : List Bed)
    (hD : Nat) :
    ∀ (ps : List Patient) (st : AdmState), st.nextId = st.acc.length + 1 →
    ∃ rest,
      (ps.foldl (fun st p => genPatientAdms W D S B hD p.patient_id st) st).acc =
        st.acc ++ rest ∧
      (ps.foldl (fun st p => genPatientAdms W D S B hD p.patient_id st) st).nextId =
        (ps.foldl (fun st p => genPatientAdms W D S B hD p.patient_id st) st).acc.length + 1 ∧
      (∀ a ∈ rest, a.patient_id ∈ ps.map (fun p => p.patient_id) ∧ admissionFacts W D S B a) ∧
      2 * ps.length ≤ rest.length ∧ rest.length ≤ 5 * ps.length ∧
      ((ps.map (fun p => p.patient_id)).Nodup →
        ∀ q : Nat, blockOk (rest.filter (fun a => a.patient_id == q)) = true ∧
          (q ∈ ps.map (fun p => p.patient_id) →
            2 ≤ (rest.filter (fun a => a.patient_id == q)).length ∧
            (rest.filter (fun a => a.patient_id == q)).length ≤ 5)) := by
  intro ps
  induction ps with
  | nil =>
    intro st hst
    exact ⟨[], by simp, by simpa using hst, by simp, by simp, by simp,
      fun _ q => ⟨rfl, by simp⟩⟩
  | cons p ps ih =>
    intro st hst
    obtain ⟨blk, hb1, hb2, hb3, hb4, hb5, hb6⟩ := genPatientAdms_spec W D S B hD p.patient_id st hst
    obtain ⟨rest', hr1, hr2, hr3, hr4, hr5, hr6⟩ :=
      ih (genPatientAdms W D S B hD p.patient_id st) hb2
    have hfold : (p :: ps).foldl (fun st p => genPatientAdms W D S B hD p.patient_id st) st =
        ps.foldl (fun st p => genPatientAdms W D S B hD p.patient_id st)
          (genPatientAdms W D S B hD p.patient_id st) := rfl
    refine ⟨blk ++ rest', ?_, ?_, ?_, ?_, ?_, ?_⟩
    · rw [hfold, hr1, hb1, List.append_assoc]
    · rw [hfold]; exact hr2
    · intro x hx
      rcases List.mem_append.mp hx with h1 | h2
      · exact ⟨by rw [(hb5 x h1).1]; simp, (hb5 x h1).2⟩
      · exact ⟨List.mem_cons_of_mem _ ((hr3 x h2).1), (hr3 x h2).2⟩
    · rw [List.length_append]
      simp only [List.length_cons]
      omega
    · rw [List.length_append]
      simp only [List.length_cons]
      omega
    · intro hnd q
      rw [List.map_cons, List.nodup_cons] at hnd
      obtain ⟨hp1, hp2⟩ := hnd
      rw [List.filter_append]
      by_cases hq : q = p.patient_id
      · have hfb : blk.filter (fun a => a.patient_id == q) = blk :=
          List.filter_eq_self.mpr (fun a ha => by
            rw [(hb5 a ha).1, hq]; exact beq_self_eq_true _)
        have hfr : rest'.filter (fun a => a.patient_id == q) = [] :=
          List.filter_eq_nil_iff.mpr (fun a ha => by
            have := (hr3 a ha).1
            simp only [beq_iff_eq]
            intro hc
            rw [hc, hq] at this
            exact hp1 this)
        rw [hfb, hfr, List.append_nil]
        exact ⟨hb6, fun _ => ⟨hb3, hb4⟩⟩
      · have hfb : blk.filter (fun a => a.patient_id == q) = [] :=
          List.filter_eq_nil_iff.mpr (fun a ha => by
            simp only [beq_iff_eq]
            intro hc
            rw [(hb5 a ha).1] at hc
            exact hq hc.symm)
        rw [hfb, List.nil_append]
        refine ⟨(hr6 hp2 q).1, fun hqm => (hr6 hp2 q).2 ?_⟩
        rcases List.mem_cons.mp hqm with h1 | h2
        · exact absurd h1 hq
        · exact h2

/-- The fold specification instantiated at the initial state of
`generate_admissions` (empty global list, `admission_id = 1`). -/
theorem generate_admissions_facts (ps : List Patient) (W : List Ward) (D : List Diagnosis)
    (S : List Staff) (B : List Bed) (hD : Nat) (r : Rng) :
    (∀ a ∈ (generate_admissions ps W D S B hD r).1,
      a.patient_id ∈ ps.map (fun p => p.patient_id) ∧ admissionFacts W D S B a) ∧
    2 * ps.length ≤ (generate_admissions ps W D S B hD r).1.length ∧
    (generate_admissions ps W D S B hD r).1.length ≤ 5 * ps.length ∧
    ((ps.map (fun p => p.patient_id)).Nodup →
      ∀ q : Nat,
        blockOk (((generate_admissions ps W D S B hD r).1).filter
          (fun a => a.patient_id == q)) = true ∧
        (q ∈ ps.map (fun p => p.patient_id) →
          2 ≤ (((generate_admissions ps W D S B hD r).1).filter
            (fun a => a.patient_id == q)).length ∧
          (((generate_admissions ps W D S B hD r).1).filter
            (fun a => a.patient_id == q)).length ≤ 5)) := by
  obtain ⟨rest, h1, _, h3, h4, h5, h6⟩ :=
    admFold_spec W D S B hD ps (AdmState.mk [] 1 r) rfl
  have hres : (generate_admissions ps W D S B hD r).1 =
      (ps.foldl (fun st p => genPatientAdms W D S B hD p.patient_id st)
        (AdmState.mk [] 1 r)).acc := rfl
  rw [hres, h1, List.nil_append]
  exact ⟨h3, h4, h5, h6⟩

/-! ## Medication-administration row facts -/

/-- Everything that holds of each emitted MAR row: its parent admission is a
row of the input admission table and carries the same patient; the
scheduled time lies in `[admission, admission + los days]` (the upper
endpoint is attainable: 4th dose of the last day); the administered time,
when present, is within `[-30, +60]` minutes of the scheduled time; the
medication is a row of the formulary; prescriber and (when set)
administering nurse resolve to staff rows with the permitted roles. -/
def marRowOk (A : List Admission) (meds : List Medication) (S : List Staff)
    (m : MarRecord) : Prop :=
  (∃ a ∈ A, m.admission_id = a.admission_id ∧ m.patient_id = a.patient_id ∧
    a.admission_datetime ≤ m.scheduled_datetime ∧
    m.scheduled_datetime ≤ a.admission_datetime + (a.length_of_stay : Int) * 1440) ∧
  (∃ md ∈ meds, m.medication_id = md.medication_id) ∧
  (doctorPool S ≠ [] → ∃ s ∈ S, m.prescribed_by_staff_id = s.staff_id ∧
    (s.role = "Attending Physician" ∨ s.role = "Resident")) ∧
  (nursePool S ≠ [] → ∀ n, m.administered_by_staff_id = some n →
    ∃ s ∈ S, n = s.staff_id ∧ s.role = "Registered Nurse") ∧
  (∀ t, m.administered_datetime = some t →
    m.scheduled_datetime - 30 ≤ t ∧ t ≤ m.scheduled_datetime + 60)

theorem adminBy_ok {S : List Staff} (hN : nursePool S ≠ []) (c : Bool) (r : Rng) (n : Nat)
    (h : (if c = true then some (sampleOne (nursePool S) r).1.staff_id else none) = some n) :
    ∃ s ∈ S, n = s.staff_id ∧ s.role = "Registered Nurse" := by
  cases c
  · simp at h
  · rw [if_pos rfl] at h
    injection h with h
    obtain ⟨hm, hr⟩ := nursePool_mem (sampleOne_mem hN r)
    exact ⟨_, hm, h.symm, hr⟩

theorem administered_time_ok (c : Bool) (sch : Int) (r : Rng) (t : Int)
    (h : (if c = true then
            (some (sch + (randI (-30) 60 r).1), (randI (-30) 60 r).2)
          else (none, r)).1 = some t) :
    sch - 30 ≤ t ∧ t ≤ sch + 60 := by
  cases c
  · simp at h
  · rw [if_pos rfl] at h
    injection h with h
    have h1 := randI_lower (-30) 60 r
    have h2 := randI_upper (by norm_num : (-30 : Int) ≤ 60) r
    omega

theorem marDose_inv (A : List Admission) (meds : List Medication) (S : List Staff)
    (adm : Admission) (med : Medication) (day : Nat)
    (hadm : adm ∈ A) (hmed : med ∈ meds) (hday : day < adm.length_of_stay) :
    ∀ (dose : Nat) (st : MarState), dose < 4 →
    (∀ m ∈ st.rows, marRowOk A meds S m) →
    ∀ m ∈ (marDose S adm med day dose st).rows, marRowOk A meds S m := by
  intro dose st hdose hst x hx
  rcases List.mem_append.mp hx with hold | hnew
  · exact hst x hold
  · rw [List.mem_singleton] at hnew
    subst hnew
    refine ⟨⟨adm, hadm, rfl, rfl, ?_, ?_⟩, ⟨med, hmed, rfl⟩, ?_, ?_, ?_⟩
    · show adm.admission_datetime ≤
        adm.admission_datetime + ((day * 1440 + 8 * 60 * dose : Nat) : Int)
      have := Int.ofNat_nonneg (day * 1440 + 8 * 60 * dose)
      omega
    · show adm.admission_datetime + ((day * 1440 + 8 * 60 * dose : Nat) : Int) ≤
        adm.admission_datetime + (adm.length_of_stay : Int) * 1440
      omega
    · intro hS
      exact ⟨_, (doctorPool_mem (sampleOne_mem hS _)).1, rfl,
        (doctorPool_mem (sampleOne_mem hS _)).2⟩
    · intro hN n hn
      exact adminBy_ok hN _ _ n hn
    · intro t ht
      exact administered_time_ok _ _ _ t ht

theorem marDay_inv (A : List Admission) (meds : List Medication) (S : List Staff)
    (adm : Admission) (med : Medication)
    (hadm : adm ∈ A) (hmed : med ∈ meds) :
    ∀ (day : Nat) (st : MarState), day < adm.length_of_stay →
    (∀ m ∈ st.rows, marRowOk A meds S m) →
    ∀ m ∈ (marDay S adm med day st).rows, marRowOk A meds S m := by
  intro day st hday hst
  have hle : (randN 1 4 st.rng).1 ≤ 4 := randN_upper (by norm_num) _
  exact loopN_inv_lt (marDose S adm med day)
    (fun s => ∀ m ∈ s.rows, marRowOk A meds S m) 4
    (fun i s hi hs => marDose_inv A meds S adm med day hadm hmed hday i s hi hs)
    (randN 1 4 st.rng).1 0 (MarState.mk st.rows st.nextId (randN 1 4 st.rng).2)
    (by omega) hst

theorem marMed_inv (A : List Admission) (meds : List Medication) (S : List Staff)
    (adm : Admission) (med : Medication)
    (hadm : adm ∈ A) (hmed : med ∈ meds) (st : MarState)
    (hst : ∀ m ∈ st.rows, marRowOk A meds S m) :
    ∀ m ∈ (marMed S adm st med).rows, marRowOk A meds S m :=
  loopN_inv_lt (marDay S adm med)
    (fun s => ∀ m ∈ s.rows, marRowOk A meds S m) adm.length_of_stay
    (fun i s hi hs => marDay_inv A meds S adm med hadm hmed i s hi hs)
    adm.length_of_stay 0 st (by omega) hst

theorem marAdm_inv (A : List Admission) (meds : List Medication) (S : List Staff)
    (adm : Admission) (hadm : adm ∈ A) (st : MarState)
    (hst : ∀ m ∈ st.rows, marRowOk A meds S m) :
    ∀ m ∈ (marAdm meds S st adm).rows, marRowOk A meds S m := by
  have hsub := sampleK_subset (randN 3 8 st.rng).1 meds (randN 3 8 st.rng).2
  exact foldl_inv (marMed S adm) (fun s => ∀ m ∈ s.rows, marRowOk A meds S m) _
    (fun md hmd s hs => marMed_inv A meds S adm md hadm (hsub md hmd) s hs)
    (MarState.mk st.rows st.nextId (sampleK (randN 3 8 st.rng).1 meds (randN 3 8 st.rng).2).2)
    hst

/-- Every row emitted by `generate_medication_administration` satisfies
`marRowOk`. -/
theorem mar_spec (A : List Admission) (meds : List Medication) (S : List Staff) (r : Rng) :
    ∀ m ∈ (generate_medication_administration A meds S r).1, marRowOk A meds S m := by
  have hsub := sampleFrac_subset 3 10 A r
  exact foldl_inv (marAdm meds S) (fun s => ∀ m ∈ s.rows, marRowOk A meds S m) _
    (fun adm hadm s hs => marAdm_inv A meds S adm (hsub adm hadm) s hs)
    (MarState.mk [] 1 (sampleFrac 3 10 A r).2)
    (by simp)

/-! ## Vital-sign row facts -/

/-- Everything that holds of each emitted vital-sign row: parent admission
and patient, recording time strictly inside the admission window, recorder
is a Registered Nurse, and every measurement lies in the generator's
hardcoded numeric ranges. -/
def vitalRowOk (A : List Admission) (S : List Staff) (v : VitalRecord) : Prop :=
  (∃ a ∈ A, v.admission_id = a.admission_id ∧ v.patient_id = a.patient_id ∧
    a.admission_datetime ≤ v.recorded_datetime ∧
    v.recorded_datetime < a.admission_datetime + (a.length_of_stay : Int) * 1440) ∧
  (nursePool S ≠ [] → ∃ s ∈ S, v.recorded_by_staff_id = s.staff_id ∧
    s.role = "Registered Nurse") ∧
  90 ≤ v.blood_pressure_systolic ∧ v.blood_pressure_systolic ≤ 180 ∧
  60 ≤ v.blood_pressure_diastolic ∧ v.blood_pressure_diastolic ≤ 120 ∧
  55 ≤ v.heart_rate ∧ v.heart_rate ≤ 120 ∧
  360 ≤ v.temperature_tenths ∧ v.temperature_tenths ≤ 390 ∧
  12 ≤ v.respiratory_rate ∧ v.respiratory_rate ≤ 24 ∧
  88 ≤ v.oxygen_saturation ∧ v.oxygen_saturation ≤ 100 ∧
  v.pain_level ≤ 8

theorem temp_tenths_upper (x : Nat) : 360 + x % 31 ≤ 390 := by
  have := Nat.mod_lt x (show 0 < 31 by norm_num)
  omega

theorem vitalCheck_inv (A : List Admission) (S : List Staff) (adm : Admission) (day : Nat)
    (hadm : adm ∈ A) (hday : day < adm.length_of_stay) :
    ∀ (check : Nat) (st : VitalState), check < 4 →
    (∀ v ∈ st.rows, vitalRowOk A S v) →
    ∀ v ∈ (vitalCheck S adm day check st).rows, vitalRowOk A S v := by
  intro check st hcheck hst x hx
  rcases List.mem_append.mp hx with hold | hnew
  · exact hst x hold
  · rw [List.mem_singleton] at hnew
    subst hnew
    refine ⟨⟨adm, hadm, rfl, rfl, ?_, ?_⟩, ?_, ?_, ?_, ?_, ?_, ?_, ?_,
      Nat.le_add_right 360 _, temp_tenths_upper _, ?_, ?_, ?_, ?_, ?_⟩
    · show adm.admission_datetime ≤
        adm.admission_datetime + ((day * 1440 + 6 * 60 * check : Nat) : Int)
      have := Int.ofNat_nonneg (day * 1440 + 6 * 60 * check)
      omega
    · show adm.admission_datetime + ((day * 1440 + 6 * 60 * check : Nat) : Int) <
        adm.admission_datetime + (adm.length_of_stay : Int) * 1440
      omega
    · intro hN
      exact ⟨_, (nursePool_mem (sampleOne_mem hN _)).1, rfl,
        (nursePool_mem (sampleOne_mem hN _)).2⟩
    · exact randN_lower _ _ _
    · exact randN_upper (by norm_num) _
    · exact randN_lower _ _ _
    · exact randN_upper (by norm_num) _
    · exact randN_lower _ _ _
    · exact randN_upper (by norm_num) _
    · exact randN_lower _ _ _
    · exact randN_upper (by norm_num) _
    · exact randN_lower _ _ _
    · exact randN_upper (by norm_num) _
    · exact randN_upper (by norm_num) _

theorem vitalDay_inv (A : List Admission) (S : List Staff) (adm : Admission)
    (checksPerDay : Nat) (hadm : adm ∈ A) (hc4 : checksPerDay ≤ 4) :
    ∀ (day : Nat) (st : VitalState), day < adm.length_of_stay →
    (∀ v ∈ st.rows, vitalRowOk A S v) →
    ∀ v ∈ (vitalDay S adm checksPerDay day st).rows, vitalRowOk A S v := by
  intro day st hday hst
  exact loopN_inv_lt (vitalCheck S adm day)
    (fun s => ∀ v ∈ s.rows, vitalRowOk A S v) 4
    (fun i s hi hs => vitalCheck_inv A S adm day hadm hday i s hi hs)
    checksPerDay 0 st (by omega) hst

theorem vitalAdm_inv (A : List Admission) (S : List Staff) (adm : Admission)
    (hadm : adm ∈ A) (st : VitalState)
    (hst : ∀ v ∈ st.rows, vitalRowOk A S v) :
    ∀ v ∈ (vitalAdm S st adm).rows, vitalRowOk A S v := by
  have hc4 : (randN 2 4 st.rng).1 ≤ 4 := randN_upper (by norm_num) _
  exact loopN_inv_lt (vitalDay S adm (randN 2 4 st.rng).1)
    (fun s => ∀ v ∈ s.rows, vitalRowOk A S v) adm.length_of_stay
    (fun i s hi hs => vitalDay_inv A S adm (randN 2 4 st.rng).1 hadm hc4 i s hi hs)
    adm.length_of_stay 0 (VitalState.mk st.rows st.nextId (randN 2 4 st.rng).2)
    (by omega) hst

/-- Every row emitted by `generate_vital_signs` satisfies `vitalRowOk`. -/
theorem vitals_spec (A : List Admission) (S : List Staff) (r : Rng) :
    ∀ v ∈ (generate_vital_signs A S r).1, vitalRowOk A S v := by
  have hsub := sampleFrac_subset 3 10 A r
  exact foldl_inv (vitalAdm S) (fun s => ∀ v ∈ s.rows, vitalRowOk A S v) _
    (fun adm hadm s hs => vitalAdm_inv A S adm (hsub adm hadm) s hs)
    (VitalState.mk [] 1 (sampleFrac 3 10 A r).2)
    (by simp)

/-! ## Lab-result row facts -/

/-- Everything that holds of each emitted lab row: parent admission and
patient; collection between 6am of some stay day and 10am of the last stay
day (hence strictly inside the window whenever the stay is at least one
day); result 2 to 24 hours after collection (hence possibly up to 10 hours
past the end of the window); orderer is a physician or resident. -/
def labRowOk (A : List Admission) (S : List Staff) (l : LabRecord) : Prop :=
  (∃ a ∈ A, l.admission_id = a.admission_id ∧ l.patient_id = a.patient_id ∧
    a.admission_datetime + 360 ≤ l.collected_datetime ∧
    l.collected_datetime ≤
      a.admission_datetime + ((a.length_of_stay - 1 : Nat) : Int) * 1440 + 600 ∧
    (1 ≤ a.length_of_stay →
      l.collected_datetime < a.admission_datetime + (a.length_of_stay : Int) * 1440)) ∧
  l.collected_datetime + 120 ≤ l.resulted_datetime ∧
  l.resulted_datetime ≤ l.collected_datetime + 1440 ∧
  (doctorPool S ≠ [] → ∃ s ∈ S, l.ordered_by_staff_id = s.staff_id ∧
    (s.role = "Attending Physician" ∨ s.role = "Resident"))

theorem lab_resulted_bounds (coll : Int) (rh : Nat) (h1 : 2 ≤ rh) (h2 : rh ≤ 24) :
    coll + 120 ≤ coll + ((rh * 60 : Nat) : Int) ∧
    coll + ((rh * 60 : Nat) : Int) ≤ coll + 1440 := by
  constructor <;> omega

theorem labOne_inv (A : List Admission) (S : List Staff) (adm : Admission)
    (hadm : adm ∈ A) :
    ∀ (panel : Nat) (st : LabState),
    (∀ l ∈ st.rows, labRowOk A S l) →
    ∀ l ∈ (labOne S adm panel st).rows, labRowOk A S l := by
  intro panel st hst x hx
  rcases List.mem_append.mp hx with hold | hnew
  · exact hst x hold
  · rw [List.mem_singleton] at hnew
    subst hnew
    have hdd1 := randN_lower 0 (adm.length_of_stay - 1)
      (sampleOne (doctorPool S) (choice labTestTypes st.rng).2).2
    have hdd2 := randN_upper (Nat.zero_le (adm.length_of_stay - 1))
      (sampleOne (doctorPool S) (choice labTestTypes st.rng).2).2
    refine ⟨⟨adm, hadm, rfl, rfl, ?_, ?_, ?_⟩, ?_, ?_, ?_⟩
    · show adm.admission_datetime + 360 ≤ adm.admission_datetime +
        (((randN 0 (adm.length_of_stay - 1)
            (sampleOne (doctorPool S) (choice labTestTypes st.rng).2).2).1 * 1440 +
          (randN 6 10 (randN 0 (adm.length_of_stay - 1)
            (sampleOne (doctorPool S) (choice labTestTypes st.rng).2).2).2).1 * 60 : Nat) : Int)
      have hh1 := randN_lower 6 10 (randN 0 (adm.length_of_stay - 1)
        (sampleOne (doctorPool S) (choice labTestTypes st.rng).2).2).2
      omega
    · show adm.admission_datetime +
        (((randN 0 (adm.length_of_stay - 1)
            (sampleOne (doctorPool S) (choice labTestTypes st.rng).2).2).1 * 1440 +
          (randN 6 10 (randN 0 (adm.length_of_stay - 1)
            (sampleOne (doctorPool S) (choice labTestTypes st.rng).2).2).2).1 * 60 : Nat) : Int) ≤
        adm.admission_datetime + ((adm.length_of_stay - 1 : Nat) : Int) * 1440 + 600
      have hh2 := randN_upper (by norm_num : 6 ≤ 10) (randN 0 (adm.length_of_stay - 1)
        (sampleOne (doctorPool S) (choice labTestTypes st.rng).2).2).2
      omega
    · intro hlos
      show adm.admission_datetime +
        (((randN 0 (adm.length_of_stay - 1)
            (sampleOne (doctorPool S) (choice labTestTypes st.rng).2).2).1 * 1440 +
          (randN 6 10 (randN 0 (adm.length_of_stay - 1)
            (sampleOne (doctorPool S) (choice labTestTypes st.rng).2).2).2).1 * 60 : Nat) : Int) <
        adm.admission_datetime + (adm.length_of_stay : Int) * 1440
      have hh2 := randN_upper (by norm_num : 6 ≤ 10) (randN 0 (adm.length_of_stay - 1)
        (sampleOne (doctorPool S) (choice labTestTypes st.rng).2).2).2
      omega
    · exact (lab_resulted_bounds _ _ (randN_lower _ _ _) (randN_upper (by norm_num) _)).1
    · exact (lab_resulted_bounds _ _ (randN_lower _ _ _) (randN_upper (by norm_num) _)).2
    · intro hS
      exact ⟨_, (doctorPool_mem (sampleOne_mem hS _)).1, rfl,
        (doctorPool_mem (sampleOne_mem hS _)).2⟩

theorem labAdm_inv (A : List Admission) (S : List Staff) (adm : Admission)
    (hadm : adm ∈ A) (st : LabState)
    (hst : ∀ l ∈ st.rows, labRowOk A S l) :
    ∀ l ∈ (labAdm S st adm).rows, labRowOk A S l :=
  loopN_inv (labOne S adm) (fun s => ∀ l ∈ s.rows, labRowOk A S l)
    (fun i s hs => labOne_inv A S adm hadm i s hs)
    (randN 1 4 st.rng).1 0 (LabState.mk st.rows st.nextId (randN 1 4 st.rng).2) hst

/-- Every row emitted by `generate_lab_results` satisfies `labRowOk`. -/
theorem labs_spec (A : List Admission) (S : List Staff) (r : Rng) :
    ∀ l ∈ (generate_lab_results A S r).1, labRowOk A S l := by
  have hsub := sampleFrac_subset 5 10 A r
  exact foldl_inv (labAdm S) (fun s => ∀ l ∈ s.rows, labRowOk A S l) _
    (fun adm hadm s hs => labAdm_inv A S adm (hsub adm hadm) s hs)
    (LabState.mk [] 1 (sampleFrac 5 10 A r).2)
    (by simp)

/-! ## Procedure-event row facts -/

/-- Everything that holds of each emitted procedure event: parent admission
and patient; scheduling between 8am of some stay day and 5pm of the last
stay day; actual time within `[-30, +120]` minutes of the scheduled time;
the procedure is a catalog row; the performer is a physician or resident. -/
def procRowOk (A : List Admission) (procs : List Procedure) (S : List Staff)
    (e : ProcedureEvent) : Prop :=
  (∃ a ∈ A, e.admission_id = a.admission_id ∧ e.patient_id = a.patient_id ∧
    a.admission_datetime + 480 ≤ e.scheduled_datetime ∧
    e.scheduled_datetime ≤
      a.admission_datetime + ((a.length_of_stay - 1 : Nat) : Int) * 1440 + 1020) ∧
  e.scheduled_datetime - 30 ≤ e.actual_datetime ∧
  e.actual_datetime ≤ e.scheduled_datetime + 120 ∧
  (procs ≠ [] → ∃ p ∈ procs, e.procedure_id = p.procedure_id) ∧
  (doctorPool S ≠ [] → ∃ s ∈ S, e.performed_by_staff_id = s.staff_id ∧
    (s.role = "Attending Physician" ∨ s.role = "Resident"))

theorem proc_sched_bounds (admdt : Int) (los dd hh : Nat) (hdd : dd ≤ los - 1)
    (hh1 : 8 ≤ hh) (hh2 : hh ≤ 17) :
    admdt + 480 ≤ admdt + ((dd * 1440 + hh * 60 : Nat) : Int) ∧
    admdt + ((dd * 1440 + hh * 60 : Nat) : Int) ≤
      admdt + ((los - 1 : Nat) : Int) * 1440 + 1020 := by
  constructor <;> omega

theorem proc_actual_bounds (sch off : Int) (h1 : -30 ≤ off) (h2 : off ≤ 120) :
    sch - 30 ≤ sch + off ∧ sch + off ≤ sch + 120 := by
  constructor <;> omega

theorem procOne_inv (A : List Admission) (procs : List Procedure) (S : List Staff)
    (adm : Admission) (hadm : adm ∈ A) :
    ∀ (pn : Nat) (st : ProcState),
    (∀ e ∈ st.rows, procRowOk A procs S e) →
    ∀ e ∈ (procOne procs S adm pn st).rows, procRowOk A procs S e := by
  intro pn st hst x hx
  rcases List.mem_append.mp hx with hold | hnew
  · exact hst x hold
  · rw [List.mem_singleton] at hnew
    subst hnew
    refine ⟨⟨adm, hadm, rfl, rfl, ?_, ?_⟩, ?_, ?_, ?_, ?_⟩
    · exact (proc_sched_bounds adm.admission_datetime adm.length_of_stay _ _
        (randN_upper (Nat.zero_le _) _) (randN_lower _ _ _)
        (randN_upper (by norm_num) _)).1
    · exact (proc_sched_bounds adm.admission_datetime adm.length_of_stay _ _
        (randN_upper (Nat.zero_le _) _) (randN_lower _ _ _)
        (randN_upper (by norm_num) _)).2
    · exact (proc_actual_bounds _ _ (randI_lower _ _ _)
        (randI_upper (by norm_num) _)).1
    · exact (proc_actual_bounds _ _ (randI_lower _ _ _)
        (randI_upper (by norm_num) _)).2
    · intro hP
      exact ⟨_, sampleOne_mem hP _, rfl⟩
    · intro hS
      exact ⟨_, (doctorPool_mem (sampleOne_mem hS _)).1, rfl,
        (doctorPool_mem (sampleOne_mem hS _)).2⟩

theorem procAdm_inv (A : List Admission) (procs : List Procedure) (S : List Staff)
    (adm : Admission) (hadm : adm ∈ A) (st : ProcState)
    (hst : ∀ e ∈ st.rows, procRowOk A procs S e) :
    ∀ e ∈ (procAdm procs S st adm).rows, procRowOk A procs S e :=
  loopN_inv (procOne procs S adm) (fun s => ∀ e ∈ s.rows, procRowOk A procs S e)
    (fun i s hs => procOne_inv A procs S adm hadm i s hs)
    (randN 1 3 st.rng).1 0 (ProcState.mk st.rows st.nextId (randN 1 3 st.rng).2) hst

/-- Every row emitted by `generate_procedure_events` satisfies `procRowOk`. -/
theorem procs_spec (A : List Admission) (procs : List Procedure) (S : List Staff) (r : Rng) :
    ∀ e ∈ (generate_procedure_events A procs S r).1, procRowOk A procs S e := by
  have hsub := sampleFrac_subset 4 10 A r
  exact foldl_inv (procAdm procs S) (fun s => ∀ e ∈ s.rows, procRowOk A procs S e) _
    (fun adm hadm s hs => procAdm_inv A procs S adm (hsub adm hadm) s hs)
    (ProcState.mk [] 1 (sampleFrac 4 10 A r).2)
    (by simp)

/-! ## Daily-activity row facts -/

/-- Parent admission and patient of each daily-activity row, the recording
time (8pm of the stay day, strictly inside the admission window), and the
Registered-Nurse recorder. -/
def activityRowOk (A : List Admission) (S : List Staff) (x : ActivityRecord) : Prop :=
  (∃ a ∈ A, x.admission_id = a.admission_id ∧ x.patient_id = a.patient_id ∧
    a.admission_datetime ≤ x.recorded_datetime ∧
    x.recorded_datetime < a.admission_datetime + (a.length_of_stay : Int) * 1440) ∧
  (nursePool S ≠ [] → ∃ s ∈ S, x.recorded_by_staff_id = s.staff_id ∧
    s.role = "Registered Nurse")

theorem activityDay_inv (A : List Admission) (S : List Staff) (adm : Admission)
    (hadm : adm ∈ A) :
    ∀ (day : Nat) (st : ActivityState), day < adm.length_of_stay →
    (∀ x ∈ st.rows, activityRowOk A S x) →
    ∀ x ∈ (activityDay S adm day st).rows, activityRowOk A S x := by
  intro day st hday hst x hx
  rcases List.mem_append.mp hx with hold | hnew
  · exact hst x hold
  · rw [List.mem_singleton] at hnew
    subst hnew
    refine ⟨⟨adm, hadm, rfl, rfl, ?_, ?_⟩, ?_⟩
    · show adm.admission_datetime ≤
        adm.admission_datetime + ((day * 1440 + 20 * 60 : Nat) : Int)
      have := Int.ofNat_nonneg (day * 1440 + 20 * 60)
      omega
    · show adm.admission_datetime + ((day * 1440 + 20 * 60 : Nat) : Int) <
        adm.admission_datetime + (adm.length_of_stay : Int) * 1440
      omega
    · intro hN
      exact ⟨_, (nursePool_mem (sampleOne_mem hN _)).1, rfl,
        (nursePool_mem (sampleOne_mem hN _)).2⟩

theorem activityAdm_inv (A : List Admission) (S : List Staff) (adm : Admission)
    (hadm : adm ∈ A) (st : ActivityState)
    (hst : ∀ x ∈ st.rows, activityRowOk A S x) :
    ∀ x ∈ (activityAdm S st adm).rows, activityRowOk A S x :=
  loopN_inv_lt (activityDay S adm) (fun s => ∀ x ∈ s.rows, activityRowOk A S x)
    adm.length_of_stay
    (fun i s hi hs => activityDay_inv A S adm hadm i s hi hs)
    adm.length_of_stay 0 st (by omega) hst

/-- Every row emitted by `generate_daily_activities` satisfies
`activityRowOk`. -/
theorem activities_spec (A : List Admission) (S : List Staff) (r : Rng) :
    ∀ x ∈ (generate_daily_activities A S r).1, activityRowOk A S x := by
  have hsub := sampleFrac_subset 4 10 A r
  exact foldl_inv (activityAdm S) (fun s => ∀ x ∈ s.rows, activityRowOk A S x) _
    (fun adm hadm s hs => activityAdm_inv A S adm (hsub adm hadm) s hs)
    (ActivityState.mk [] 1 (sampleFrac 4 10 A r).2)
    (by simp)

/-! ## Care-goal row facts -/

/-- Parent admission and patient of each care-plan goal, the
Registered-Nurse creator, and the status → progress coupling (Achieved →
100, Not Started / Discontinued → 0, In Progress → a draw in [30, 90]). -/
def goalRowOk (A : List Admission) (S : List Staff) (g : GoalRecord) : Prop :=
  (∃ a ∈ A, g.admission_id = a.admission_id ∧ g.patient_id = a.patient_id) ∧
  (nursePool S ≠ [] → ∃ s ∈ S, g.created_by_staff_id = s.staff_id ∧
    s.role = "Registered Nurse") ∧
  (g.status = "Achieved" → g.progress_pct = 100) ∧
  ((g.status = "Not Started" ∨ g.status = "Discontinued") → g.progress_pct = 0) ∧
  (g.status = "In Progress" → 30 ≤ g.progress_pct ∧ g.progress_pct ≤ 90)

theorem goalProgress_ok (stv : String) (r : Rng) :
    (stv = "Achieved" →
      (if stv == "Achieved" then ((100 : Nat), r)
       else if stv == "In Progress" then randN 30 90 r else (0, r)).1 = 100) ∧
    ((stv = "Not Started" ∨ stv = "Discontinued") →
      (if stv == "Achieved" then ((100 : Nat), r)
       else if stv == "In Progress" then randN 30 90 r else (0, r)).1 = 0) ∧
    (stv = "In Progress" →
      30 ≤ (if stv == "Achieved" then ((100 : Nat), r)
            else if stv == "In Progress" then randN 30 90 r else (0, r)).1 ∧
      (if stv == "Achieved" then ((100 : Nat), r)
       else if stv == "In Progress" then randN 30 90 r else (0, r)).1 ≤ 90) := by
  refine ⟨?_, ?_, ?_⟩
  · intro h
    simp [h]
  · intro h
    rcases h with h | h <;> simp [h]
  · intro h
    simp only [h]
    norm_num
    exact ⟨randN_lower _ _ _, randN_upper (by norm_num) _⟩

theorem goalOne_inv (A : List Admission) (S : List Staff) (adm : Admission)
    (hadm : adm ∈ A) :
    ∀ (gn : Nat) (st : GoalState),
    (∀ g ∈ st.rows, goalRowOk A S g) →
    ∀ g ∈ (goalOne S adm gn st).rows, goalRowOk A S g := by
  intro gn st hst x hx
  rcases List.mem_append.mp hx with hold | hnew
  · exact hst x hold
  · rw [List.mem_singleton] at hnew
    subst hnew
    refine ⟨⟨adm, hadm, rfl, rfl⟩, ?_, ?_, ?_, ?_⟩
    · intro hN
      exact ⟨_, (nursePool_mem (sampleOne_mem hN _)).1, rfl,
        (nursePool_mem (sampleOne_mem hN _)).2⟩
    · exact (goalProgress_ok _ _).1
    · exact (goalProgress_ok _ _).2.1
    · exact (goalProgress_ok _ _).2.2

theorem goalAdm_inv (A : List Admission) (S : List Staff) (adm : Admission)
    (hadm : adm ∈ A) (st : GoalState)
    (hst : ∀ g ∈ st.rows, goalRowOk A S g) :
    ∀ g ∈ (goalAdm S st adm).rows, goalRowOk A S g :=
  loopN_inv (goalOne S adm) (fun s => ∀ g ∈ s.rows, goalRowOk A S g)
    (fun i s hs => goalOne_inv A S adm hadm i s hs)
    (randN 2 4 st.rng).1 0 (GoalState.mk st.rows st.nextId (randN 2 4 st.rng).2) hst

/-- Every row emitted by `generate_care_plan_goals` satisfies `goalRowOk`. -/
theorem goals_spec (A : List Admission) (S : List Staff) (r : Rng) :
    ∀ g ∈ (generate_care_plan_goals A S r).1, goalRowOk A S g := by
  have hsub := sampleFrac_subset 6 10 A r
  exact foldl_inv (goalAdm S) (fun s => ∀ g ∈ s.rows, goalRowOk A S g) _
    (fun adm hadm s hs => goalAdm_inv A S adm (hsub adm hadm) s hs)
    (GoalState.mk [] 1 (sampleFrac 6 10 A r).2)
    (by simp)

/-! ## Dimension-table lemmas -/

theorem buildList_length {α : Type} (f : Nat → Rng → α × Rng) :
    ∀ (n i : Nat) (r : Rng), ((buildList f i n r).1).length = n := by
  intro n
  induction n with
  | zero => intro i r; rfl
  | succ n ih => intro i r; simp only [buildList, List.length_cons, ih]

theorem buildList_map {α β : Type} (f : Nat → Rng → α × Rng) (g : α → β) (gi : Nat → β)
    (h : ∀ i r, g (f i r).1 = gi i) :
    ∀ (n i : Nat) (r : Rng),
      ((buildList f i n r).1).map g = (List.range' i n).map gi := by
  intro n
  induction n with
  | zero => intro i r; rfl
  | succ n ih =>
    intro i r
    have hb : (buildList f i (Nat.succ n) r).1 =
        (f i r).1 :: (buildList f (i + 1) n (f i r).2).1 := rfl
    rw [hb, List.map_cons, h, ih, List.range'_succ, List.map_cons]

theorem mapRng_map {α β γ : Type} (f : α → Rng → β × Rng) (g : β → γ) (g2 : α → γ)
    (h : ∀ a r, g (f a r).1 = g2 a) :
    ∀ (l : List α) (r : Rng), ((mapRng f l r).1).map g = l.map g2 := by
  intro l
  induction l with
  | nil => intro r; rfl
  | cons a l ih =>
    intro r
    simp only [mapRng, List.map_cons, h, ih]

/-- The generated patient table has ids `1..n` in order. -/
theorem generate_patients_ids (n : Nat) (r : Rng) :
    ((generate_patients n r).1).map (fun p => p.patient_id) =
      (List.range' 1 n).map (fun i => i) :=
  buildList_map mkPatient (fun p => p.patient_id) (fun i => i) (fun _ _ => rfl) n 1 r

/-- Patient ids are distinct. -/
theorem generate_patients_ids_nodup (n : Nat) (r : Rng) :
    (((generate_patients n r).1).map (fun p => p.patient_id)).Nodup := by
  rw [generate_patients_ids]
  exact List.Nodup.map (fun a b h => h) (List.nodup_range' 1 n)

/-- The generated ward table carries exactly the configured ward ids. -/
theorem generate_wards_ids (r : Rng) :
    ((generate_wards r).1).map (fun w => w.ward_id) = WARDS.map (fun w => w.ward_id) := by
  have h : (generate_wards r).1 = (mapRng (fun w r =>
      let ph := fakerStr "phone_number" r
      (Ward.mk w.ward_id w.ward_name w.department w.bed_capacity w.ward_type w.floor_number ph.1,
        ph.2)) WARDS r).1 := rfl
  rw [h]
  exact mapRng_map _ (fun (w : Ward) => w.ward_id) (fun (w : WardCfg) => w.ward_id)
    (fun _ _ => rfl) WARDS r

theorem generate_wards_ne_nil (r : Rng) : (generate_wards r).1 ≠ [] := by
  intro h
  have := congrArg List.length (generate_wards_ids r)
  rw [h] at this
  simp [WARDS] at this

/-! ## Concrete fixtures (small input tables and fixed streams, used by the
witnesses and the counterexample) -/

/-- The all-zero draw stream. -/
def rng0 : Rng := Rng.mk (fun _ => 0) 0

/-- The all-three draw stream (chosen so that the sampled admission gets 4
doses per day, exhibiting the window-end schedule). -/
def rng3 : Rng := Rng.mk (fun _ => 3) 0

/-- A one-day admission starting at the epoch, with the given id. -/
def cexAdm (i : Nat) : Admission :=
  Admission.mk i 1 1 1 0 0 1 1440 "Emergency" "Pneumonia" 2 [] 1 1 false none "Home" 0

/-- A two-row admission table. -/
def cexAdmissions : List Admission := [cexAdm 1, cexAdm 2]

/-- An eight-row formulary. -/
def cexMeds : List Medication :=
  (List.range 8).map (fun i =>
    Medication.mk (i + 1) "Azole" "Amine" "Antibiotic" "Tablet" "Pfizer" 100
      "Allergy to Antibiotic")

/-- A two-row staff table: one physician, one nurse. -/
def cexStaff : List Staff :=
  [Staff.mk 1 "A" "B" "Attending Physician" "Critical Care" "Day"
    "Licensed Attending Physician" "2010-01-01" true,
   Staff.mk 2 "C" "D" "Registered Nurse" "Critical Care" "Day"
    "Licensed Registered Nurse" "2010-01-01" true]

/-- A two-row patient table with ids 1 and 2. -/
def cexPatients : List Patient :=
  [Patient.mk 1 "MRN00000001" "A" "B" "1980-01-01" "Male" "A+" "x" "y" "ST" "00000"
    "555" "a@b.c" "Aetna" "E" "555" "2020-01-01" none true,
   Patient.mk 2 "MRN00000002" "C" "D" "1981-01-01" "Female" "O+" "x" "y" "ST" "00000"
    "555" "d@b.c" "Aetna" "E" "555" "2020-01-01" none true]

/-- A one-row ward table. -/
def cexWards : List Ward := [Ward.mk 1 "ICU" "Critical Care" 20 "Intensive Care" 3 "555"]

/-- A one-row bed table, in ward 1. -/
def cexBeds : List Bed := [Bed.mk 1 1 "ICU-001" "ICU" true true true]

/-- A one-row procedure catalog. -/
def cexProcs : List Procedure :=
  [Procedure.mk 1 "Endoscopy" "Diagnostic" "Critical Care" 60 10000 false]

/-- A concrete admission run over the fixtures. -/
def cexAdmRun : List Admission :=
  (generate_admissions cexPatients cexWards generate_diagnoses cexStaff cexBeds 10 rng0).1

/-- Its first emitted admission. -/
def cexAdmRow : Admission := cexAdmRun.getD 0 default

/-- A concrete MAR run over the fixtures with the all-three stream. -/
def cexMarRun : List MarRecord :=
  (generate_medication_administration cexAdmissions cexMeds cexStaff rng3).1

/-- Its fourth emitted dose row (the 4th dose of the sampled admission's
single stay day). -/
def cexMarRow : MarRecord := cexMarRun.getD 3 default

/-- The admission the sampled dose rows belong to. -/
def cexAdm2 : Admission := cexAdmissions.getD 1 default

/-- A concrete vitals run over the fixtures. -/
def cexVitalRun : List VitalRecord :=
  (generate_vital_signs cexAdmissions cexStaff rng0).1

/-- Its first emitted row. -/
def cexVitalRow : VitalRecord := cexVitalRun.getD 0 default

/-- A concrete care-goal run over the fixtures. -/
def cexGoalRun : List GoalRecord :=
  (generate_care_plan_goals cexAdmissions cexStaff rng0).1

/-- Its first emitted row. -/
def cexGoalRow : GoalRecord := cexGoalRun.getD 0 default

/-! ## Claim theorems -/

/-- C1: For every patient, admissions are emitted in generation order, and
the per-patient slice of the emitted list is a well-flagged readmission
block: the first admission generated for the patient has
`is_readmission = false`, and the k-th admission (k > 1) has
`is_readmission = true` iff
`(admission_k.admission_datetime − admission_{k−1}.discharge_datetime).days ≤ 30`
against the immediately prior admission generated for that same patient
(`blockOk` / `readmitFlagSpec` state exactly this; `daysBetween` is the
Python `timedelta.days` floor).  Patient ids are distinct in the generated
patient table (`generate_patients_ids_nodup`). -/
theorem readmission_flag_iff_30day_gap (ps : List Patient) (W : List Ward)
    (D : List Diagnosis) (S : List Staff) (B : List Bed) (hD : Nat) (r : Rng)
    (hnd : (ps.map (fun p => p.patient_id)).Nodup) (q : Nat) :
    blockOk (((generate_admissions ps W D S B hD r).1).filter
      (fun a => a.patient_id == q)) = true :=
  ((generate_admissions_facts ps W D S B hD r).2.2.2 hnd q).1

theorem readmission_flag_iff_30day_gap_witness :
    blockOk ((cexAdmRun).filter (fun a => a.patient_id == 1)) = true :=
  readmission_flag_iff_30day_gap cexPatients cexWards generate_diagnoses cexStaff
    cexBeds 10 rng0 (by decide) 1

/-- C2: For every generated admission, `discharge_datetime` equals
`admission_datetime` plus exactly `length_of_stay` days, and the stay length
lies in the range determined by the sampled primary diagnosis's severity
(`losRange`: Critical → [5,21], Serious → [3,14], otherwise → [1,7]); hence
`length_of_stay > 0` and the discharge is not before the admission. -/
theorem stay_length_matches_severity (ps : List Patient) (W : List Ward)
    (D : List Diagnosis) (S : List Staff) (B : List Bed) (hD : Nat) (r : Rng)
    (hDne : D ≠ []) :
    ∀ a ∈ (generate_admissions ps W D S B hD r).1,
      a.discharge_datetime = a.admission_datetime + (a.length_of_stay : Int) * 1440 ∧
      1 ≤ a.length_of_stay ∧
      ∃ d ∈ D, a.primary_diagnosis_id = d.diagnosis_id ∧
        (losRange d.severity_level).1 ≤ a.length_of_stay ∧
        a.length_of_stay ≤ (losRange d.severity_level).2 := by
  intro a ha
  obtain ⟨_, hf⟩ := (generate_admissions_facts ps W D S B hD r).1 a ha
  exact ⟨hf.1, hf.2.1, hf.2.2.2.1 hDne⟩

theorem stay_length_matches_severity_witness :
    cexAdmRow.discharge_datetime =
      cexAdmRow.admission_datetime + (cexAdmRow.length_of_stay : Int) * 1440 ∧
    1 ≤ cexAdmRow.length_of_stay ∧
    ∃ d ∈ generate_diagnoses, cexAdmRow.primary_diagnosis_id = d.diagnosis_id ∧
      (losRange d.severity_level).1 ≤ cexAdmRow.length_of_stay ∧
      cexAdmRow.length_of_stay ≤ (losRange d.severity_level).2 :=
  stay_length_matches_severity cexPatients cexWards generate_diagnoses cexStaff
    cexBeds 10 rng0 (by decide) cexAdmRow (by decide)

/-- C3 (counterexample): the claim that every child-row timestamp is
strictly before `admission_datetime + length_of_stay` days is false: with
the all-three stream the generator schedules the 4th daily dose of the
sampled one-day admission exactly at `admission_datetime + 1440` minutes,
i.e. exactly at — not strictly before — the end of the window. -/
theorem mar_scheduled_reaches_window_end :
    cexMarRow ∈ cexMarRun ∧ cexAdm2 ∈ cexAdmissions ∧
    cexMarRow.admission_id = cexAdm2.admission_id ∧
    ¬(cexMarRow.scheduled_datetime <
       cexAdm2.admission_datetime + (cexAdm2.length_of_stay : Int) * 1440) := by
  decide

/-- C3 (amended): medication scheduled datetimes lie in the closed interval
`[admission, admission + los days]` (the upper endpoint is attainable), the
administered datetime — when present — is within `[-30, +60]` minutes of
the scheduled one and may therefore leave the window by up to 60 minutes;
lab collection datetimes lie strictly inside the window (when the stay is
at least a day), while lab result datetimes are 2 to 24 hours after
collection and may therefore exceed the window by up to 10 hours; vitals
recording datetimes lie strictly inside the window. -/
theorem child_row_time_bounds (A : List Admission) (meds : List Medication)
    (S : List Staff) (r1 r2 r3 : Rng) :
    (∀ m ∈ (generate_medication_administration A meds S r1).1, ∃ a ∈ A,
      m.admission_id = a.admission_id ∧
      a.admission_datetime ≤ m.scheduled_datetime ∧
      m.scheduled_datetime ≤ a.admission_datetime + (a.length_of_stay : Int) * 1440 ∧
      ∀ t, m.administered_datetime = some t →
        m.scheduled_datetime - 30 ≤ t ∧ t ≤ m.scheduled_datetime + 60) ∧
    (∀ l ∈ (generate_lab_results A S r2).1, ∃ a ∈ A,
      l.admission_id = a.admission_id ∧
      a.admission_datetime + 360 ≤ l.collected_datetime ∧
      (1 ≤ a.length_of_stay →
        l.collected_datetime < a.admission_datetime + (a.length_of_stay : Int) * 1440) ∧
      l.collected_datetime + 120 ≤ l.resulted_datetime ∧
      l.resulted_datetime ≤ l.collected_datetime + 1440) ∧
    (∀ v ∈ (generate_vital_signs A S r3).1, ∃ a ∈ A,
      v.admission_id = a.admission_id ∧
      a.admission_datetime ≤ v.recorded_datetime ∧
      v.recorded_datetime < a.admission_datetime + (a.length_of_stay : Int) * 1440) := by
  refine ⟨?_, ?_, ?_⟩
  · intro m hm
    obtain ⟨⟨a, ha, h1, _, h3, h4⟩, _, _, _, h5⟩ := mar_spec A meds S r1 m hm
    exact ⟨a, ha, h1, h3, h4, h5⟩
  · intro l hl
    obtain ⟨⟨a, ha, h1, _, h3, _, h5⟩, h6, h7, _⟩ := labs_spec A S r2 l hl
    exact ⟨a, ha, h1, h3, h5, h6, h7⟩
  · intro v hv
    obtain ⟨⟨a, ha, h1, _, h3, h4⟩, _⟩ := vitals_spec A S r3 v hv
    exact ⟨a, ha, h1, h3, h4⟩

theorem child_row_time_bounds_witness :
    ∃ a ∈ cexAdmissions,
      cexMarRow.admission_id = a.admission_id ∧
      a.admission_datetime ≤ cexMarRow.scheduled_datetime ∧
      cexMarRow.scheduled_datetime ≤
        a.admission_datetime + (a.length_of_stay : Int) * 1440 ∧
      ∀ t, cexMarRow.administered_datetime = some t →
        cexMarRow.scheduled_datetime - 30 ≤ t ∧ t ≤ cexMarRow.scheduled_datetime + 60 :=
  (child_row_time_bounds cexAdmissions cexMeds cexStaff rng3 rng0 rng0).1
    cexMarRow (by decide)

/-- C4: Referential integrity across the generated table set: every
admission's patient, ward, bed (in the admission's ward), attending doctor,
and primary/secondary diagnoses resolve to rows of the input tables, and
every child fact row's `admission_id`/`patient_id` pair comes from a row of
the admissions table, with `medication_id`/`procedure_id` and all staff
references resolving to their dimension tables.  The non-emptiness
hypotheses are the spec's required precondition (the script raises on an
empty sampling pool). -/
theorem referential_integrity (ps : List Patient) (W : List Ward) (D : List Diagnosis)
    (S : List Staff) (B : List Bed) (meds : List Medication) (procs : List Procedure)
    (hD : Nat) (r r1 r2 r3 r4 r5 r6 : Rng)
    (hW : W ≠ []) (hB : ∀ w ∈ W, B.filter (fun b => b.ward_id == w.ward_id) ≠ [])
    (hDne : D ≠ []) (hdoc : doctorPool S ≠ []) (hnur : nursePool S ≠ []) :
    (∀ a ∈ (generate_admissions ps W D S B hD r).1,
      a.patient_id ∈ ps.map (fun p => p.patient_id) ∧
      (∃ w ∈ W, a.ward_id = w.ward_id) ∧
      (∃ b ∈ B, a.bed_id = b.bed_id ∧ b.ward_id = a.ward_id) ∧
      (∃ s ∈ S, a.attending_doctor_id = s.staff_id) ∧
      (∃ d ∈ D, a.primary_diagnosis_id = d.diagnosis_id) ∧
      (∀ i ∈ a.secondary_diagnosis_ids, ∃ d ∈ D, i = d.diagnosis_id)) ∧
    (∀ m ∈ (generate_medication_administration
        (generate_admissions ps W D S B hD r).1 meds S r1).1,
      (∃ a ∈ (generate_admissions ps W D S B hD r).1,
        m.admission_id = a.admission_id ∧ m.patient_id = a.patient_id) ∧
      (∃ md ∈ meds, m.medication_id = md.medication_id) ∧
      (∃ s ∈ S, m.prescribed_by_staff_id = s.staff_id) ∧
      (∀ n, m.administered_by_staff_id = some n → ∃ s ∈ S, n = s.staff_id)) ∧
    (∀ v ∈ (generate_vital_signs (generate_admissions ps W D S B hD r).1 S r2).1,
      (∃ a ∈ (generate_admissions ps W D S B hD r).1,
        v.admission_id = a.admission_id ∧ v.patient_id = a.patient_id) ∧
      (∃ s ∈ S, v.recorded_by_staff_id = s.staff_id)) ∧
    (∀ x ∈ (generate_daily_activities (generate_admissions ps W D S B hD r).1 S r3).1,
      (∃ a ∈ (generate_admissions ps W D S B hD r).1,
        x.admission_id = a.admission_id ∧ x.patient_id = a.patient_id) ∧
      (∃ s ∈ S, x.recorded_by_staff_id = s.staff_id)) ∧
    (∀ e ∈ (generate_procedure_events
        (generate_admissions ps W D S B hD r).1 procs S r4).1,
      (∃ a ∈ (generate_admissions ps W D S B hD r).1,
        e.admission_id = a.admission_id ∧ e.patient_id = a.patient_id) ∧
      (procs ≠ [] → ∃ p ∈ procs, e.procedure_id = p.procedure_id) ∧
      (∃ s ∈ S, e.performed_by_staff_id = s.staff_id)) ∧
    (∀ l ∈ (generate_lab_results (generate_admissions ps W D S B hD r).1 S r5).1,
      (∃ a ∈ (generate_admissions ps W D S B hD r).1,
        l.admission_id = a.admission_id ∧ l.patient_id = a.patient_id) ∧
      (∃ s ∈ S, l.ordered_by_staff_id = s.staff_id)) ∧
    (∀ g ∈ (generate_care_plan_goals (generate_admissions ps W D S B hD r).1 S r6).1,
      (∃ a ∈ (generate_admissions ps W D S B hD r).1,
        g.admission_id = a.admission_id ∧ g.patient_id = a.patient_id) ∧
      (∃ s ∈ S, g.created_by_staff_id = s.staff_id)) := by
  refine ⟨?_, ?_, ?_, ?_, ?_, ?_, ?_⟩
  · intro a ha
    obtain ⟨hpid, hf⟩ := (generate_admissions_facts ps W D S B hD r).1 a ha
    obtain ⟨d, hd, hdeq, _⟩ := hf.2.2.2.1 hDne
    obtain ⟨s, hs, hseq, _⟩ := hf.2.2.2.2.2.2.1 hdoc
    exact ⟨hpid, hf.2.2.2.2.1 hW, hf.2.2.2.2.2.1 hW hB, ⟨s, hs, hseq⟩,
      ⟨d, hd, hdeq⟩, hf.2.2.2.2.2.2.2.1⟩
  · intro m hm
    obtain ⟨⟨a, ha, h1, h2, _⟩, hmed, hpr, hnu, _⟩ :=
      mar_spec (generate_admissions ps W D S B hD r).1 meds S r1 m hm
    obtain ⟨s, hs, hseq, _⟩ := hpr hdoc
    refine ⟨⟨a, ha, h1, h2⟩, hmed, ⟨s, hs, hseq⟩, ?_⟩
    intro n hn
    obtain ⟨s2, hs2, hs2eq, _⟩ := hnu hnur n hn
    exact ⟨s2, hs2, hs2eq⟩
  · intro v hv
    obtain ⟨⟨a, ha, h1, h2, _⟩, hnu, _⟩ :=
      vitals_spec (generate_admissions ps W D S B hD r).1 S r2 v hv
    obtain ⟨s, hs, hseq, _⟩ := hnu hnur
    exact ⟨⟨a, ha, h1, h2⟩, ⟨s, hs, hseq⟩⟩
  · intro x hx
    obtain ⟨⟨a, ha, h1, h2, _⟩, hnu⟩ :=
      activities_spec (generate_admissions ps W D S B hD r).1 S r3 x hx
    obtain ⟨s, hs, hseq, _⟩ := hnu hnur
    exact ⟨⟨a, ha, h1, h2⟩, ⟨s, hs, hseq⟩⟩
  · intro e he
    obtain ⟨⟨a, ha, h1, h2, _⟩, _, _, hp, hdr⟩ :=
      procs_spec (generate_admissions ps W D S B hD r).1 procs S r4 e he
    obtain ⟨s, hs, hseq, _⟩ := hdr hdoc
    exact ⟨⟨a, ha, h1, h2⟩, hp, ⟨s, hs, hseq⟩⟩
  · intro l hl
    obtain ⟨⟨a, ha, h1, h2, _⟩, _, _, hdr⟩ :=
      labs_spec (generate_admissions ps W D S B hD r).1 S r5 l hl
    obtain ⟨s, hs, hseq, _⟩ := hdr hdoc
    exact ⟨⟨a, ha, h1, h2⟩, ⟨s, hs, hseq⟩⟩
  · intro g hg
    obtain ⟨⟨a, ha, h1, h2⟩, hnu, _⟩ :=
      goals_spec (generate_admissions ps W D S B hD r).1 S r6 g hg
    obtain ⟨s, hs, hseq, _⟩ := hnu hnur
    exact ⟨⟨a, ha, h1, h2⟩, ⟨s, hs, hseq⟩⟩

theorem referential_integrity_witness :
    cexAdmRow.patient_id ∈ cexPatients.map (fun p => p.patient_id) ∧
    (∃ w ∈ cexWards, cexAdmRow.ward_id = w.ward_id) ∧
    (∃ b ∈ cexBeds, cexAdmRow.bed_id = b.bed_id ∧ b.ward_id = cexAdmRow.ward_id) ∧
    (∃ s ∈ cexStaff, cexAdmRow.attending_doctor_id = s.staff_id) ∧
    (∃ d ∈ generate_diagnoses, cexAdmRow.primary_diagnosis_id = d.diagnosis_id) ∧
    (∀ i ∈ cexAdmRow.secondary_diagnosis_ids, ∃ d ∈ generate_diagnoses, i = d.diagnosis_id) :=
  (referential_integrity cexPatients cexWards generate_diagnoses cexStaff cexBeds
    cexMeds cexProcs 10 rng0 rng0 rng0 rng0 rng0 rng0 rng0
    (by decide) (by decide) (by decide) (by decide) (by decide)).1 cexAdmRow (by decide)

/-- C5: Role-constrained staff attribution in the child fact tables:
vital-sign recorders and (when set) medication administerers are Registered
Nurses; medication prescribers, procedure performers and lab orderers are
Attending Physicians or Residents. -/
theorem role_constrained_attribution (A : List Admission) (meds : List Medication)
    (procs : List Procedure) (S : List Staff) (r1 r2 r3 r4 : Rng)
    (hdoc : doctorPool S ≠ []) (hnur : nursePool S ≠ []) :
    (∀ m ∈ (generate_medication_administration A meds S r1).1,
      (∃ s ∈ S, m.prescribed_by_staff_id = s.staff_id ∧
        (s.role = "Attending Physician" ∨ s.role = "Resident")) ∧
      (∀ n, m.administered_by_staff_id = some n →
        ∃ s ∈ S, n = s.staff_id ∧ s.role = "Registered Nurse")) ∧
    (∀ v ∈ (generate_vital_signs A S r2).1,
      ∃ s ∈ S, v.recorded_by_staff_id = s.staff_id ∧ s.role = "Registered Nurse") ∧
    (∀ e ∈ (generate_procedure_events A procs S r3).1,
      ∃ s ∈ S, e.performed_by_staff_id = s.staff_id ∧
        (s.role = "Attending Physician" ∨ s.role = "Resident")) ∧
    (∀ l ∈ (generate_lab_results A S r4).1,
      ∃ s ∈ S, l.ordered_by_staff_id = s.staff_id ∧
        (s.role = "Attending Physician" ∨ s.role = "Resident")) := by
  refine ⟨?_, ?_, ?_, ?_⟩
  · intro m hm
    obtain ⟨_, _, hpr, hnu, _⟩ := mar_spec A meds S r1 m hm
    exact ⟨hpr hdoc, hnu hnur⟩
  · intro v hv
    obtain ⟨_, hnu, _⟩ := vitals_spec A S r2 v hv
    exact hnu hnur
  · intro e he
    obtain ⟨_, _, _, _, hdr⟩ := procs_spec A procs S r3 e he
    exact hdr hdoc
  · intro l hl
    obtain ⟨_, _, _, hdr⟩ := labs_spec A S r4 l hl
    exact hdr hdoc

theorem role_constrained_attribution_witness :
    (∃ s ∈ cexStaff, cexMarRow.prescribed_by_staff_id = s.staff_id ∧
      (s.role = "Attending Physician" ∨ s.role = "Resident")) ∧
    (∀ n, cexMarRow.administered_by_staff_id = some n →
      ∃ s ∈ cexStaff, n = s.staff_id ∧ s.role = "Registered Nurse") :=
  (role_constrained_attribution cexAdmissions cexMeds cexProcs cexStaff
    rng3 rng0 rng0 rng0 (by decide) (by decide)).1 cexMarRow (by decide)

/-- C6: Reproducibility: the embedded pipeline is a pure function of the
configuration and the seeded draw stream (all three pseudo-random sources
are seeded once at startup), so two runs with the same seed and the same
configuration produce identical table sets. -/
theorem same_seed_same_tables (numPatients numStaff numMeds numProcs horizonDays : Nat)
    (r1 r2 : Rng) (h : r1 = r2) :
    generateAll numPatients numStaff numMeds numProcs horizonDays r1 =
      generateAll numPatients numStaff numMeds numProcs horizonDays r2 := by
  rw [h]

theorem same_seed_same_tables_witness :
    generateAll NUM_PATIENTS NUM_STAFF 200 100 HORIZON_DAYS rng0 =
      generateAll NUM_PATIENTS NUM_STAFF 200 100 HORIZON_DAYS rng0 :=
  same_seed_same_tables NUM_PATIENTS NUM_STAFF 200 100 HORIZON_DAYS rng0 rng0 rfl

/-- C7: Care-goal progress is derived deterministically from the status:
`Achieved → 100`, `Not Started`/`Discontinued → 0`, and `In Progress` lands
in `[30, 90]`. -/
theorem care_goal_progress_consistency (A : List Admission) (S : List Staff) (r : Rng) :
    ∀ g ∈ (generate_care_plan_goals A S r).1,
      (g.status = "Achieved" → g.progress_pct = 100) ∧
      ((g.status = "Not Started" ∨ g.status = "Discontinued") → g.progress_pct = 0) ∧
      (g.status = "In Progress" → 30 ≤ g.progress_pct ∧ g.progress_pct ≤ 90) :=
  fun g hg => (goals_spec A S r g hg).2.2

theorem care_goal_progress_consistency_witness :
    (cexGoalRow.status = "Achieved" → cexGoalRow.progress_pct = 100) ∧
    ((cexGoalRow.status = "Not Started" ∨ cexGoalRow.status = "Discontinued") →
      cexGoalRow.progress_pct = 0) ∧
    (cexGoalRow.status = "In Progress" →
      30 ≤ cexGoalRow.progress_pct ∧ cexGoalRow.progress_pct ≤ 90) :=
  care_goal_progress_consistency cexAdmissions cexStaff rng0 cexGoalRow (by decide)

/-- C8: With the configured `NUM_PATIENTS = 500` patient table, the
configured 12-ward table, and the 5-year horizon, every patient gets
between 2 and 5 admissions, the admission count is between 1000 and 2500,
and every admission's `ward_id` is one of the 12 configured ward ids —
for every draw stream. -/
theorem scenario_500_patients_bounds (rp rw ra : Rng) (D : List Diagnosis)
    (S : List Staff) (B : List Bed) :
    1000 ≤ ((generate_admissions (generate_patients NUM_PATIENTS rp).1
      (generate_wards rw).1 D S B HORIZON_DAYS ra).1).length ∧
    ((generate_admissions (generate_patients NUM_PATIENTS rp).1
      (generate_wards rw).1 D S B HORIZON_DAYS ra).1).length ≤ 2500 ∧
    (((generate_patients NUM_PATIENTS rp).1).all (fun p =>
      decide (2 ≤ (((generate_admissions (generate_patients NUM_PATIENTS rp).1
          (generate_wards rw).1 D S B HORIZON_DAYS ra).1).filter
          (fun a => a.patient_id == p.patient_id)).length ∧
        (((generate_admissions (generate_patients NUM_PATIENTS rp).1
          (generate_wards rw).1 D S B HORIZON_DAYS ra).1).filter
          (fun a => a.patient_id == p.patient_id)).length ≤ 5))) = true ∧
    (((generate_admissions (generate_patients NUM_PATIENTS rp).1
      (generate_wards rw).1 D S B HORIZON_DAYS ra).1).all (fun a =>
      decide (a.ward_id ∈ WARDS.map (fun w => w.ward_id)))) = true := by
  have hfacts := generate_admissions_facts (generate_patients NUM_PATIENTS rp).1
    (generate_wards rw).1 D S B HORIZON_DAYS ra
  have hlen : ((generate_patients NUM_PATIENTS rp).1).length = NUM_PATIENTS :=
    buildList_length mkPatient NUM_PATIENTS 1 rp
  refine ⟨?_, ?_, ?_, ?_⟩
  · have h := hfacts.2.1
    rw [hlen] at h
    have : (2 : Nat) * NUM_PATIENTS = 1000 := by norm_num [NUM_PATIENTS]
    omega
  · have h := hfacts.2.2.1
    rw [hlen] at h
    have : (5 : Nat) * NUM_PATIENTS = 2500 := by norm_num [NUM_PATIENTS]
    omega
  · rw [List.all_eq_true]
    intro p hp
    rw [decide_eq_true_eq]
    exact (hfacts.2.2.2 (generate_patients_ids_nodup NUM_PATIENTS rp) p.patient_id).2
      (List.mem_map_of_mem _ hp)
  · rw [List.all_eq_true]
    intro a ha
    rw [decide_eq_true_eq]
    obtain ⟨w, hw, hweq⟩ :=
      ((hfacts.1 a ha).2).2.2.2.2.1 (generate_wards_ne_nil rw)
    rw [hweq, ← generate_wards_ids rw]
    exact List.mem_map_of_mem _ hw

/-- C9: The `readmission_days_since_discharge` attribute is never
populated: every generated admission carries `none` there, even when the
readmission flag is set — the computed day gap is used only for the flag. -/
theorem readmission_days_never_populated (ps : List Patient) (W : List Ward)
    (D : List Diagnosis) (S : List Staff) (B : List Bed) (hD : Nat) (r : Rng) :
    ∀ a ∈ (generate_admissions ps W D S B hD r).1,
      a.readmission_days_since_discharge = none :=
  fun a ha => (((generate_admissions_facts ps W D S B hD r).1 a ha).2).2.2.1

theorem readmission_days_never_populated_witness :
    cexAdmRow.readmission_days_since_discharge = none :=
  readmission_days_never_populated cexPatients cexWards generate_diagnoses cexStaff
    cexBeds 10 rng0 cexAdmRow (by decide)

/-- The numeric ranges hardcoded in `generate_vital_signs` (temperature in
tenths), which are narrower than the catalog's `VITAL_SIGNS_RANGES` at
heart rate, respiratory rate, oxygen saturation and pain level. -/
def generatorVitalRanges : VitalRangesCfg :=
  VitalRangesCfg.mk (90, 180) (60, 120) (55, 120) (360, 390) (12, 24) (88, 100) (0, 8)

/-- C10: Every generated vital-sign measurement lies in the generator's
hardcoded ranges (`generatorVitalRanges`), and those ranges differ from the
Reference Catalog's `VITAL_SIGNS_RANGES` at heart rate ((55,120) vs
(50,120)), respiratory rate ((12,24) vs (12,25)), oxygen saturation
((88,100) vs (85,100)) and pain level ((0,8) vs (0,10)), while agreeing on
blood pressure and temperature; the generator never reads the catalog. -/
theorem vitals_use_hardcoded_ranges (A : List Admission) (S : List Staff) (r : Rng) :
    (∀ v ∈ (generate_vital_signs A S r).1,
      generatorVitalRanges.blood_pressure_systolic.1 ≤ v.blood_pressure_systolic ∧
      v.blood_pressure_systolic ≤ generatorVitalRanges.blood_pressure_systolic.2 ∧
      generatorVitalRanges.blood_pressure_diastolic.1 ≤ v.blood_pressure_diastolic ∧
      v.blood_pressure_diastolic ≤ generatorVitalRanges.blood_pressure_diastolic.2 ∧
      generatorVitalRanges.heart_rate.1 ≤ v.heart_rate ∧
      v.heart_rate ≤ generatorVitalRanges.heart_rate.2 ∧
      generatorVitalRanges.temperature_tenths.1 ≤ v.temperature_tenths ∧
      v.temperature_tenths ≤ generatorVitalRanges.temperature_tenths.2 ∧
      generatorVitalRanges.respiratory_rate.1 ≤ v.respiratory_rate ∧
      v.respiratory_rate ≤ generatorVitalRanges.respiratory_rate.2 ∧
      generatorVitalRanges.oxygen_saturation.1 ≤ v.oxygen_saturation ∧
      v.oxygen_saturation ≤ generatorVitalRanges.oxygen_saturation.2 ∧
      generatorVitalRanges.pain_level.1 ≤ v.pain_level ∧
      v.pain_level ≤ generatorVitalRanges.pain_level.2) ∧
    generatorVitalRanges.heart_rate ≠ VITAL_SIGNS_RANGES.heart_rate ∧
    generatorVitalRanges.respiratory_rate ≠ VITAL_SIGNS_RANGES.respiratory_rate ∧
    generatorVitalRanges.oxygen_saturation ≠ VITAL_SIGNS_RANGES.oxygen_saturation ∧
    generatorVitalRanges.pain_level ≠ VITAL_SIGNS_RANGES.pain_level ∧
    generatorVitalRanges.blood_pressure_systolic = VITAL_SIGNS_RANGES.blood_pressure_systolic ∧
    generatorVitalRanges.blood_pressure_diastolic = VITAL_SIGNS_RANGES.blood_pressure_diastolic ∧
    generatorVitalRanges.temperature_tenths = VITAL_SIGNS_RANGES.temperature_tenths := by
  refine ⟨?_, by decide, by decide, by decide, by decide, by decide, by decide, by decide⟩
  intro v hv
  obtain ⟨_, _, h1, h2, h3, h4, h5, h6, h7, h8, h9, h10, h11, h12, h13⟩ :=
    vitals_spec A S r v hv
  exact ⟨h1, h2, h3, h4, h5, h6, h7, h8, h9, h10, h11, h12, Nat.zero_le _, h13⟩

theorem vitals_use_hardcoded_ranges_witness :
    generatorVitalRanges.blood_pressure_systolic.1 ≤ cexVitalRow.blood_pressure_systolic ∧
    cexVitalRow.blood_pressure_systolic ≤ generatorVitalRanges.blood_pressure_systolic.2 ∧
    generatorVitalRanges.blood_pressure_diastolic.1 ≤ cexVitalRow.blood_pressure_diastolic ∧
    cexVitalRow.blood_pressure_diastolic ≤ generatorVitalRanges.blood_pressure_diastolic.2 ∧
    generatorVitalRanges.heart_rate.1 ≤ cexVitalRow.heart_rate ∧
    cexVitalRow.heart_rate ≤ generatorVitalRanges.heart_rate.2 ∧
    generatorVitalRanges.temperature_tenths.1 ≤ cexVitalRow.temperature_tenths ∧
    cexVitalRow.temperature_tenths ≤ generatorVitalRanges.temperature_tenths.2 ∧
    generatorVitalRanges.respiratory_rate.1 ≤ cexVitalRow.respiratory_rate ∧
    cexVitalRow.respiratory_rate ≤ generatorVitalRanges.respiratory_rate.2 ∧
    generatorVitalRanges.oxygen_saturation.1 ≤ cexVitalRow.oxygen_saturation ∧
    cexVitalRow.oxygen_saturation ≤ generatorVitalRanges.oxygen_saturation.2 ∧
    generatorVitalRanges.pain_level.1 ≤ cexVitalRow.pain_level ∧
    cexVitalRow.pain_level ≤ generatorVitalRanges.pain_level.2 :=
  (vitals_use_hardcoded_ranges cexAdmissions cexStaff rng0).1 cexVitalRow (by decide)

end Medicare
